import Mathlib

/-!
Shallow embedding of the algorithmic core of the AstrologyResearchDatabase
repository (services/aspects_calculator.py, services/d9_navamsha.py,
services/d10_dasamsa.py, services/ashtakavarga_service.py,
services/dasha_calculator.py, services/career_rules.py,
services/profession_predictor_v2.py), together with theorems settling the
specification claims about those functions.

Conventions used throughout:
* Python floats are modelled as exact rationals (`ℚ`).
* Python `a % b` on numbers (non-negative result for positive `b`) is
  modelled by `pymod`; Python `int(x)` (truncation toward zero) by
  `pytrunc`; Python `a // b` is `⌊a / b⌋`.
* Python dicts keyed by strings are modelled as functions
  `String → Option _` (`none` = key absent); `dict.get(k, d)` with a
  default becomes a total function.
-/

set_option maxHeartbeats 1000000

/-- Python `a % b` for rationals (result in `[0, b)` for `b > 0`). -/
def pymod (a b : ℚ) : ℚ := a - b * ⌊a / b⌋

/-- Python `int(x)`: truncation toward zero. -/
def pytrunc (q : ℚ) : ℤ := if 0 ≤ q then ⌊q⌋ else ⌈q⌉

namespace AspectsCalculator

/-- `chart_data` dict of `services/aspects_calculator.py`: string keys
(`'sun_longitude'`, `'ascendant_longitude'`, ...) to float values. -/
def ChartData : Type := String → Option ℚ

/-- `get_nth_house_from` (aspects_calculator.py line 10):
`((from_house + n - 2) % 12) + 1`. -/
def get_nth_house_from (from_house n : ℤ) : ℤ :=
  ((from_house + n - 2) % 12) + 1

/-- `get_planet_aspects` (aspects_calculator.py line 24): the set of houses
aspected by `planet` placed in `from_house`: the 7th for every planet, and
the special aspects of Mars (4th, 8th), Jupiter (5th, 9th), Saturn
(3rd, 10th). -/
def get_planet_aspects (planet : String) (from_house : ℤ) : Finset ℤ :=
  let aspects : Finset ℤ := {get_nth_house_from from_house 7}
  if planet = "Mars" then
    aspects ∪ {get_nth_house_from from_house 4, get_nth_house_from from_house 8}
  else if planet = "Jupiter" then
    aspects ∪ {get_nth_house_from from_house 5, get_nth_house_from from_house 9}
  else if planet = "Saturn" then
    aspects ∪ {get_nth_house_from from_house 3, get_nth_house_from from_house 10}
  else aspects

/-- `get_house_from_planet_position` (aspects_calculator.py line 61):
whole-sign house of a planet relative to the Ascendant.
`int(x // 30)` on a non-negative-or-negative float floor-division is the
floor itself, since `//` already floors. -/
def get_house_from_planet_position (planet_longitude ascendant_longitude : ℚ) : ℤ :=
  let lagna_rasi := ⌊ascendant_longitude / 30⌋
  let planet_rasi := ⌊planet_longitude / 30⌋
  (planet_rasi - lagna_rasi) % 12 + 1

/-- Planet list iterated by the aspect queries (aspects_calculator.py line 91). -/
def planetNames : List String :=
  ["Sun", "Moon", "Mars", "Mercury", "Jupiter", "Venus", "Saturn", "Rahu", "Ketu"]

/-- `get_planets_aspecting_house` (aspects_calculator.py line 77).
`chart_data.get('ascendant_longitude')` is tested with Python truthiness
(`if not ascendant_lon`), so both an absent key and the float `0.0` take the
early-return branch. -/
def get_planets_aspecting_house (target_house : ℤ) (chart_data : ChartData) :
    List (String × ℤ) :=
  match chart_data "ascendant_longitude" with
  | none => []
  | some ascendant_lon =>
    if ascendant_lon = 0 then []
    else
      planetNames.filterMap (fun planet =>
        match chart_data (planet.toLower ++ "_longitude") with
        | none => none
        | some planet_lon =>
          let planet_house := get_house_from_planet_position planet_lon ascendant_lon
          if target_house ∈ get_planet_aspects planet planet_house then
            some (planet, planet_house)
          else none)

/-- `get_planets_aspecting_planet` (aspects_calculator.py line 129). -/
def get_planets_aspecting_planet (target_planet : String) (chart_data : ChartData) :
    List (String × ℤ) :=
  match chart_data (target_planet.toLower ++ "_longitude") with
  | none => []
  | some target_lon =>
    match chart_data "ascendant_longitude" with
    | none => []
    | some ascendant_lon =>
      if ascendant_lon = 0 then []
      else
        let target_house := get_house_from_planet_position target_lon ascendant_lon
        get_planets_aspecting_house target_house chart_data

/-- Per-planet entry of `get_all_planetary_aspects`: house, sorted aspected
houses, and the aspecting planets. -/
structure AspectInfo where
  house : ℤ
  aspects_houses : List ℤ
  aspected_by : List (String × ℤ)
deriving Repr, DecidableEq

/-- `get_all_planetary_aspects` (aspects_calculator.py line 178), as an
association list in the iteration order of the planet list. -/
def get_all_planetary_aspects (chart_data : ChartData) : List (String × AspectInfo) :=
  match chart_data "ascendant_longitude" with
  | none => []
  | some ascendant_lon =>
    if ascendant_lon = 0 then []
    else
      planetNames.filterMap (fun planet =>
        match chart_data (planet.toLower ++ "_longitude") with
        | none => none
        | some planet_lon =>
          let planet_house := get_house_from_planet_position planet_lon ascendant_lon
          some (planet,
            { house := planet_house
              aspects_houses := (get_planet_aspects planet planet_house).sort (· ≤ ·)
              aspected_by := get_planets_aspecting_planet planet chart_data }))

end AspectsCalculator

namespace D9Navamsha

/-- `NAVAMSA_START_OFFSET.get(rasi_index, 0)` (d9_navamsha.py line 22):
movable rasis 0, fixed 8, dual 4, default 0. -/
def navamsaStartOffset (i : ℤ) : ℤ :=
  if i = 0 ∨ i = 3 ∨ i = 6 ∨ i = 9 then 0
  else if i = 1 ∨ i = 4 ∨ i = 7 ∨ i = 10 then 8
  else if i = 2 ∨ i = 5 ∨ i = 8 ∨ i = 11 then 4
  else 0

/-- `d1_longitude_to_d9_rasi_index` (d9_navamsha.py line 29). -/
def d1_longitude_to_d9_rasi_index (longitude : ℚ) : ℤ :=
  let lon := pymod longitude 360
  let rasi_index := ⌊lon / 30⌋ % 12
  let degrees_in_rasi := pymod lon 30
  let part0 := pytrunc (degrees_in_rasi / (30 / 9))
  let part := if 9 ≤ part0 then 8 else part0
  let offset := navamsaStartOffset rasi_index
  (rasi_index + offset + part) % 12

/-- `NAVAMSA_PART_SIZE` (d9_navamsha.py line 44). -/
def NAVAMSA_PART_SIZE : ℚ := 30 / 9

/-- `d1_longitude_to_d9_longitude` (d9_navamsha.py line 47). -/
def d1_longitude_to_d9_longitude (longitude : ℚ) : ℚ :=
  let lon := pymod longitude 360
  let rasi_index := d1_longitude_to_d9_rasi_index lon
  let degrees_in_rasi := pymod lon 30
  let part0 := pytrunc (degrees_in_rasi / NAVAMSA_PART_SIZE)
  let part := if 9 ≤ part0 then 8 else part0
  let position_in_part := degrees_in_rasi - (part : ℚ) * NAVAMSA_PART_SIZE
  let d9_degrees := position_in_part * (30 / NAVAMSA_PART_SIZE)
  (rasi_index : ℚ) * 30 + d9_degrees

end D9Navamsha

namespace D10Dasamsa

/-- Rasi-index computation inside `d1_longitude_to_d10` (d10_dasamsa.py
lines 28-41): base rasi, 3° part, even/odd-index start rule. -/
def d10_rasi_index_of (longitude : ℚ) : ℤ :=
  let lon := pymod longitude 360
  let rasi_index := ⌊lon / 30⌋ % 12
  let degrees_in_rasi := pymod lon 30
  let part0 := pytrunc (degrees_in_rasi / 3)
  let part := if 10 ≤ part0 then 9 else part0
  if rasi_index % 2 = 0 then (rasi_index + part) % 12
  else ((rasi_index + 8) % 12 + part) % 12

/-- `d1_longitude_to_d10` (d10_dasamsa.py line 21): returns the D10
longitude `d10_rasi_index * 30 + (degrees_in_rasi % 3) * 10`. -/
def d1_longitude_to_d10 (longitude : ℚ) : ℚ :=
  let lon := pymod longitude 360
  let degrees_in_rasi := pymod lon 30
  let d10_degrees := pymod degrees_in_rasi 3 * 10
  (d10_rasi_index_of longitude : ℚ) * 30 + d10_degrees

end D10Dasamsa

namespace Ashtakavarga

/-- The 8 reference points of `services/ashtakavarga_service.py`
(`PLANET_KEY_MAP` values): 7 classical planets plus the Ascendant. -/
inductive RefPoint where
  | SUN | MOON | MARS | MERCURY | JUPITER | VENUS | SATURN | ASCENDANT
deriving DecidableEq, Repr

open RefPoint

/-- `TAMIL_ASHTAKAVARGA_RULES` (ashtakavarga_service.py lines 11-92):
for each target planet and each reference point, the static benefic
relative positions. -/
def TAMIL_ASHTAKAVARGA_RULES : RefPoint → RefPoint → List ℤ
  | SUN, SUN => [1,2,4,7,8,9,10,11]
  | SUN, MOON => [3,6,10,11]
  | SUN, MARS => [1,2,4,7,8,9,10,11]
  | SUN, MERCURY => [3,5,6,9,10,11,12]
  | SUN, JUPITER => [5,6,9,11]
  | SUN, VENUS => [6,7,12]
  | SUN, SATURN => [1,2,4,7,8,9,10,11]
  | SUN, ASCENDANT => [3,4,6,10,11,12]
  | MOON, SUN => [3,6,7,8,10,11]
  | MOON, MOON => [1,3,6,7,10,11]
  | MOON, MARS => [2,3,5,6,9,10,11]
  | MOON, MERCURY => [1,3,4,5,7,8,10,11]
  | MOON, JUPITER => [1,4,7,8,10,11,12]
  | MOON, VENUS => [3,4,5,7,9,10,11]
  | MOON, SATURN => [3,5,6,11]
  | MOON, ASCENDANT => [3,6,10,11]
  | MARS, SUN => [3,5,6,10,11]
  | MARS, MOON => [3,6,11]
  | MARS, MARS => [1,2,4,7,8,10,11]
  | MARS, MERCURY => [3,5,6,11]
  | MARS, JUPITER => [6,10,11,12]
  | MARS, VENUS => [6,8,11,12]
  | MARS, SATURN => [1,4,7,8,9,10,11]
  | MARS, ASCENDANT => [1,3,6,10,11]
  | MERCURY, SUN => [5,6,9,11,12]
  | MERCURY, MOON => [2,4,6,8,10,11]
  | MERCURY, MARS => [1,2,4,7,8,9,10,11]
  | MERCURY, MERCURY => [1,3,5,6,9,10,11,12]
  | MERCURY, JUPITER => [6,8,11,12]
  | MERCURY, VENUS => [1,2,3,4,5,8,9,11]
  | MERCURY, SATURN => [1,2,4,7,8,9,10,11]
  | MERCURY, ASCENDANT => [1,2,4,6,8,10,11]
  | JUPITER, SUN => [1,2,3,4,7,8,9,10,11]
  | JUPITER, MOON => [2,5,7,9,11]
  | JUPITER, MARS => [1,2,4,7,8,10,11]
  | JUPITER, MERCURY => [1,2,4,5,6,9,10,11]
  | JUPITER, JUPITER => [1,2,3,4,7,8,10,11]
  | JUPITER, VENUS => [2,5,6,9,10,11]
  | JUPITER, SATURN => [3,5,6,12]
  | JUPITER, ASCENDANT => [1,2,4,5,6,7,9,10,11]
  | VENUS, SUN => [8,11,12]
  | VENUS, MOON => [1,2,3,4,5,8,9,11,12]
  | VENUS, MARS => [3,5,6,9,11,12]
  | VENUS, MERCURY => [3,5,6,9,11]
  | VENUS, JUPITER => [5,8,9,10,11]
  | VENUS, VENUS => [1,2,3,4,5,8,9,10,11]
  | VENUS, SATURN => [3,4,5,8,9,10,11]
  | VENUS, ASCENDANT => [1,2,3,4,5,8,9,11]
  | SATURN, SUN => [1,2,4,7,8,10,11]
  | SATURN, MOON => [3,6,11]
  | SATURN, MARS => [3,5,6,10,11,12]
  | SATURN, MERCURY => [6,8,9,10,11,12]
  | SATURN, JUPITER => [5,6,11,12]
  | SATURN, VENUS => [6,11,12]
  | SATURN, SATURN => [3,5,6,11]
  | SATURN, ASCENDANT => [1,3,4,6,10,11]
  | ASCENDANT, SUN => [3,4,6,10,11,12]
  | ASCENDANT, MOON => [3,6,10,11]
  | ASCENDANT, MARS => [1,3,6,10,11]
  | ASCENDANT, MERCURY => [1,2,4,6,8,10,11]
  | ASCENDANT, JUPITER => [1,2,4,5,6,7,9,10,11]
  | ASCENDANT, VENUS => [1,2,3,4,5,8,9,11]
  | ASCENDANT, SATURN => [1,3,4,6,10,11]
  | ASCENDANT, ASCENDANT => [3,6,10,11]

/-- Iteration order of `rules.items()` inside `calculate_binnashtakavarga`
(dict insertion order of the rule table). -/
def refPoints : List RefPoint :=
  [SUN, MOON, MARS, MERCURY, JUPITER, VENUS, SATURN, ASCENDANT]

/-- The 7 source planets summed into the SAV
(`calculate_all_binnashtakavarga` / `calculate_sarvashtakavarga`). -/
def savPlanets : List RefPoint :=
  [SUN, MOON, MARS, MERCURY, JUPITER, VENUS, SATURN]

/-- `range(1, 13)` of house numbers. -/
def houseNums : List ℤ := [1,2,3,4,5,6,7,8,9,10,11,12]

/-- `calculate_relative_position_tamil` (ashtakavarga_service.py line 113):
forward count from the reference rasi to the target house, in `1..12` when
both arguments are in `1..12`. -/
def calculate_relative_position_tamil (target_house reference_rasi : ℤ) : ℤ :=
  if target_house ≥ reference_rasi then target_house - reference_rasi + 1
  else target_house - reference_rasi + 13

/-- Planet positions dict `{planet_name: rasi_number}` used by
`calculate_binnashtakavarga`; `none` models an absent key (the code skips
references whose position is missing: `if reference_key in planet_positions`). -/
def Positions : Type := RefPoint → Option ℤ

/-- Bindu count accumulated into `chart[house_num - 1]` by
`calculate_binnashtakavarga` (ashtakavarga_service.py lines 195-203): one
point per reference point whose position is present and whose benefic-set
contains the relative position of the house. The Python code iterates
references in the outer loop and houses in the inner loop; the per-house
total is the same sum. -/
def bav_house_points (target : RefPoint) (pos : Positions) (house_num : ℤ) : ℤ :=
  (refPoints.map (fun ref =>
    match pos ref with
    | none => 0
    | some reference_rasi =>
      if calculate_relative_position_tamil house_num reference_rasi ∈
          TAMIL_ASHTAKAVARGA_RULES target ref then 1 else 0)).sum

/-- The 12-entry `chart` list returned by `calculate_binnashtakavarga`. -/
def calculate_binnashtakavarga_chart (target : RefPoint) (pos : Positions) : List ℤ :=
  houseNums.map (bav_house_points target pos)

/-- `total = sum(chart)` of a single BAV grid. -/
def bav_total (target : RefPoint) (pos : Positions) : ℤ :=
  (calculate_binnashtakavarga_chart target pos).sum

/-- The `sav_chart` of `calculate_sarvashtakavarga` (ashtakavarga_service.py
lines 253-264): elementwise sum over the 7 planets' BAV charts. -/
def calculate_sarvashtakavarga_chart (pos : Positions) : List ℤ :=
  houseNums.map (fun h => (savPlanets.map (fun p => bav_house_points p pos h)).sum)

/-- `total = sum(sav_chart)` (ashtakavarga_service.py line 266). -/
def sav_total (pos : Positions) : ℤ :=
  (calculate_sarvashtakavarga_chart pos).sum

end Ashtakavarga

namespace CareerRules

/-- Verdict aggregation of the career rule engine (career_rules.py lines
1592-1600).  All values recorded into the `scores` dict by the evaluators
are numeric, so the `isinstance` filter in the sum keeps every entry and the
dict is modelled as the list of its values.  `total_score` divides by
`max(len(scores), 1)`; after the if/elif/else the verdict is overridden to
`"moderate"` when no scores were recorded. -/
def career_strength_verdict (scores : List ℚ) : String :=
  let total_score := scores.sum / ((max scores.length 1 : ℕ) : ℚ)
  let verdict :=
    if total_score ≥ 7/10 then "strong"
    else if total_score ≥ 4/10 then "moderate"
    else "weak"
  if scores = [] then "moderate" else verdict

/-- Spec-side notion for claim C3: the mean of the recorded scores. -/
def scoresMean (scores : List ℚ) : ℚ := scores.sum / (scores.length : ℚ)

end CareerRules

namespace DashaCalculator

/-- `NAKSHATRAS` (dasha_calculator.py lines 13-19). -/
def NAKSHATRAS : List String :=
  ["Ashwini", "Bharani", "Krittika", "Rohini", "Mrigashira", "Ardra",
   "Punarvasu", "Pushya", "Ashlesha", "Magha", "Purva Phalguni", "Uttara Phalguni",
   "Hasta", "Chitra", "Swati", "Vishakha", "Anuradha", "Jyeshtha",
   "Mula", "Purva Ashadha", "Uttara Ashadha", "Shravana", "Dhanishta", "Shatabhisha",
   "Purva Bhadrapada", "Uttara Bhadrapada", "Revati"]

/-- `DASA_DURATIONS` (dasha_calculator.py line 25): ordered dict of the
9 Vimshottari lords and their durations in years, summing to 120. -/
def DASA_DURATIONS : List (String × ℚ) :=
  [("Ketu", 7), ("Venus", 20), ("Sun", 6), ("Moon", 10),
   ("Mars", 7), ("Rahu", 18), ("Jupiter", 16), ("Saturn", 19), ("Mercury", 17)]

/-- `list(DASA_DURATIONS.keys())`. -/
def dasaPlanets : List String := DASA_DURATIONS.map Prod.fst

/-- `NAKSHATRA_LORDS` (dasha_calculator.py line 22): the 9-lord cycle
repeated three times. -/
def NAKSHATRA_LORDS : List String := dasaPlanets ++ dasaPlanets ++ dasaPlanets

/-- `list(DASA_DURATIONS.keys())[i]` lookups (always called with `i % 9`). -/
def planetAt (i : ℕ) : String := dasaPlanets.getD i ""

/-- `DASA_DURATIONS[planet]` dict lookup (the looked-up planet is always a
key of the table). -/
def durationOf (p : String) : ℚ :=
  ((DASA_DURATIONS.find? (fun x => x.1 == p)).map Prod.snd).getD 0

/-- `get_nakshatra` (dasha_calculator.py line 34): name, pada and 0-based
index of the nakshatra containing a longitude. -/
def get_nakshatra (longitude : ℚ) : String × ℤ × ℤ :=
  let nakshatra_index : ℤ := ⌊pymod longitude 360 / (360 / 27)⌋
  let pada : ℤ := pytrunc (pymod longitude (360 / 27) / (360 / 27 / 4) + 1)
  (NAKSHATRAS.getD nakshatra_index.toNat "", pada, nakshatra_index)

/-- `calculate_dasa_start` (dasha_calculator.py line 49): starting lord and
the remaining years of the partially elapsed first Mahadasha. -/
def calculate_dasa_start (moon_longitude : ℚ) : String × ℤ × String × ℚ :=
  let nk := get_nakshatra moon_longitude
  let nakshatra_length : ℚ := 360 / 27
  let remainder := pymod moon_longitude nakshatra_length
  let portion_completed := remainder / nakshatra_length
  let current_dasa_lord := NAKSHATRA_LORDS.getD nk.2.2.toNat ""
  let total_dasa_years := durationOf current_dasa_lord
  let remaining_years := total_dasa_years * (1 - portion_completed)
  (nk.1, nk.2.1, current_dasa_lord, remaining_years)

/-- Round half to even (the rounding of Python's builtin `round`),
modelled exactly on rationals. -/
def round_half_even (x : ℚ) : ℤ :=
  let f := ⌊x⌋
  let r := x - (f : ℚ)
  if r < 1/2 then f
  else if 1/2 < r then f + 1
  else if f % 2 = 0 then f else f + 1

/-- Python `round(x, 2)`. -/
def round2 (x : ℚ) : ℚ := (round_half_even (x * 100) : ℚ) / 100

/-- One row of the `dasa_table` built by `generate_dasa_table`
(dasha_calculator.py lines 104-111).  Ages and duration are stored rounded
to 2 decimals as in the source; the calendar dates (Python `datetime`
strings) are modelled as exact rational day counts from an arbitrary
origin, skipping the `strftime` day-truncation, which no claim concerns. -/
structure DasaRecord where
  planet : String
  start_age : ℚ
  end_age : ℚ
  start_date : ℚ
  end_date : ℚ
  duration : ℚ
deriving Repr, DecidableEq

/-- Mutable state of the `generate_dasa_table` loops: `current_year`,
`start_date` and the accumulated `dasa_table`. -/
structure DasaGenState where
  current_year : ℚ
  start_date : ℚ
  table : List DasaRecord
deriving Repr, DecidableEq

/-- The inner `for i in range(current_index, current_index + 9)` loop of
`generate_dasa_table` (dasha_calculator.py lines 93-114), recursing over the
list of loop offsets `j = i - current_index`.  The `if current_year >=
total_years: break` check fires before the append; the computations of
`planet`, `duration` and `end_year` preceding it in the source have no
effect when the break fires, so the check is hoisted to the head of the
iteration.  `duration` is `remaining_years` exactly when `i ==
current_index`, i.e. `j = 0`. -/
def dasaInnerLoop (total_years : ℤ) (remaining_years : ℚ) (current_index : ℕ) :
    List ℕ → DasaGenState → DasaGenState
  | [], s => s
  | j :: js, s =>
    if (total_years : ℚ) ≤ s.current_year then s
    else
      let planet := planetAt ((current_index + j) % 9)
      let duration := if j = 0 then remaining_years else durationOf planet
      let end_year := s.current_year + duration
      let end_date := s.start_date + duration * (1461 / 4)
      dasaInnerLoop total_years remaining_years current_index js
        { current_year := end_year
          start_date := end_date
          table := s.table ++
            [{ planet := planet
               start_age := round2 s.current_year
               end_age := round2 end_year
               start_date := s.start_date
               end_date := end_date
               duration := round2 duration }] }

/-- The outer `while current_year < total_years` loop of
`generate_dasa_table` (dasha_calculator.py lines 92-115); after each full
cycle `current_index` is reset to 0.  The Python `while` is unbounded; the
recursion carries fuel, and theorem `dasaWhileLoop_reaches_total` below
shows that with the fuel supplied by `generate_dasa_table` the loop
condition has become false at exit, so the fuel never cuts the loop
short. -/
def dasaWhileLoop (total_years : ℤ) (remaining_years : ℚ) :
    ℕ → ℕ → DasaGenState → DasaGenState
  | 0, _, s => s
  | fuel + 1, current_index, s =>
    if s.current_year < (total_years : ℚ) then
      dasaWhileLoop total_years remaining_years fuel 0
        (dasaInnerLoop total_years remaining_years current_index (List.range 9) s)
    else s

/-- `generate_dasa_table` (dasha_calculator.py line 71): the full
Vimshottari Mahadasha table.  `jd` enters only as the calendar origin of
the dates (`swe.revjul` day start), modelled as a rational day count. -/
def generate_dasa_table (jd : ℚ) (moon_longitude : ℚ) (total_years : ℤ) :
    String × ℤ × List DasaRecord :=
  let ds := calculate_dasa_start moon_longitude
  let current_dasa_lord := ds.2.2.1
  let remaining_years := ds.2.2.2
  let current_index := dasaPlanets.indexOf current_dasa_lord
  let final := dasaWhileLoop total_years remaining_years (total_years.toNat + 2)
    current_index { current_year := 0, start_date := jd, table := [] }
  (ds.1, ds.2.1, final.table)

end DashaCalculator

namespace ProfessionPredictorV2

/-- `chart_data` dict of `services/profession_predictor_v2.py`.  Every
access in the module is `chart_data.get(key, '')`, so the dict is modelled
as a total function with `""` for absent keys. -/
def ChartV2 : Type := String → String

/-- One entry of `PROFESSION_CATEGORIES` (profession_predictor_v2.py lines
12-136).  A combination is (required planets, bonus, yoga name). -/
structure ProfessionCategory where
  description : String
  primary_planets : List String
  secondary_planets : List String
  signs : List String
  nakshatras : List String
  houses : List ℕ
  combinations : List (List String × ℤ × String)

/-- `PROFESSION_CATEGORIES` as an association list in dict insertion
order. -/
def PROFESSION_CATEGORIES : List (String × ProfessionCategory) :=
  [("Technology/IT/Software",
    { description := "Software, IT, Engineering, Data Science, AI/ML, Tech CEO"
      primary_planets := ["Mercury", "Rahu", "Saturn", "Mars"]
      secondary_planets := ["Jupiter", "Venus"]
      signs := ["Gemini", "Virgo", "Aquarius", "Scorpio", "Mithuna", "Kanya", "Kumbha", "Vrischika", "Vrishchika"]
      nakshatras := ["Ashlesha", "Jyeshtha", "Revati", "Shatabhisha", "Swati", "Mrigashira", "Punarvasu", "Chitra"]
      houses := [3, 5, 6, 9, 10, 11]
      combinations :=
        [(["Mercury", "Jupiter"], 30, "Tech Business Leadership Yoga"),
         (["Mercury", "Mars"], 30, "Tech Engineering Yoga"),
         (["Mars", "Venus"], 25, "Tech Design/UX Yoga"),
         (["Mercury", "Venus"], 25, "Creative Tech/Design Yoga"),
         (["Mercury", "Rahu"], 25, "Tech Innovation Yoga"),
         (["Mercury", "Saturn"], 20, "Systematic Tech Yoga")] }),
   ("Business/Corporate Leadership",
    { description := "CEO, Business Management, Entrepreneurship, Corporate"
      primary_planets := ["Sun", "Mercury", "Jupiter"]
      secondary_planets := ["Venus", "Mars"]
      signs := ["Leo", "Sagittarius", "Capricorn", "Simha", "Dhanus", "Makara"]
      nakshatras := ["Pushya", "Uttara Phalguni", "Uttara Ashadha", "Ashlesha", "Rohini"]
      houses := [1, 2, 7, 10, 11]
      combinations :=
        [(["Sun", "Mercury"], 30, "Budha-Aditya Yoga (Leadership)"),
         (["Mercury", "Jupiter"], 35, "Budha-Guru Yoga (Business Wisdom)"),
         (["Sun", "Jupiter"], 25, "Guru-Aditya Yoga (Authority)")] }),
   ("Finance/Banking/Investment",
    { description := "Banking, Finance, Investment, Accounting, Stock Market"
      primary_planets := ["Venus", "Jupiter", "Mercury"]
      secondary_planets := ["Moon"]
      signs := ["Taurus", "Libra", "Sagittarius", "Rishaba", "Tula", "Dhanus"]
      nakshatras := ["Rohini", "Pushya", "Uttara Phalguni", "Purva Bhadrapada"]
      houses := [2, 5, 9, 10, 11]
      combinations :=
        [(["Venus", "Jupiter"], 30, "Lakshmi Yoga (Wealth)"),
         (["Mercury", "Jupiter"], 25, "Financial Wisdom Yoga")] }),
   ("Government/Administration/Politics",
    { description := "Government Service, Politics, Public Administration, IAS/IPS"
      primary_planets := ["Sun", "Saturn", "Jupiter"]
      secondary_planets := ["Mars", "Rahu"]
      signs := ["Leo", "Capricorn", "Sagittarius", "Simha", "Makara", "Dhanus"]
      nakshatras := ["Krittika", "Magha", "Uttara Phalguni", "Uttara Ashadha", "Uttara Bhadrapada"]
      houses := [1, 6, 9, 10]
      combinations :=
        [(["Sun", "Saturn"], 25, "Administrative Yoga"),
         (["Sun", "Rahu"], 30, "Political Power Yoga")] }),
   ("Medicine/Healthcare",
    { description := "Doctor, Healthcare, Medicine, Surgery, Nursing"
      primary_planets := ["Moon", "Ketu", "Mars"]
      secondary_planets := ["Jupiter", "Venus"]
      signs := ["Cancer", "Scorpio", "Pisces", "Virgo", "Kataka", "Vrishchika", "Meena", "Kanya"]
      nakshatras := ["Ashwini", "Rohini", "Ardra", "Pushya", "Hasta"]
      houses := [6, 8, 10, 12]
      combinations :=
        [(["Moon", "Mars"], 25, "Surgeon Yoga"),
         (["Moon", "Ketu"], 20, "Healer Yoga")] }),
   ("Teaching/Education/Research",
    { description := "Professor, Teacher, Academic Research, Training"
      primary_planets := ["Jupiter", "Mercury"]
      secondary_planets := ["Moon"]
      signs := ["Sagittarius", "Pisces", "Gemini", "Dhanus", "Meena", "Mithuna"]
      nakshatras := ["Punarvasu", "Vishakha", "Purva Bhadrapada", "Revati"]
      houses := [4, 5, 9, 10]
      combinations :=
        [(["Jupiter", "Moon"], 25, "Gajakesari Yoga (Teacher)"),
         (["Jupiter", "Mercury"], -15, "Business over Teaching")] }),
   ("Arts/Media/Entertainment",
    { description := "Acting, Music, Writing, Media, Journalism, Creative Arts"
      primary_planets := ["Venus", "Moon", "Mercury"]
      secondary_planets := ["Rahu"]
      signs := ["Taurus", "Libra", "Pisces", "Cancer", "Rishaba", "Tula", "Meena", "Kataka"]
      nakshatras := ["Bharani", "Rohini", "Purva Phalguni", "Revati", "Ashwini"]
      houses := [3, 5, 10, 11]
      combinations :=
        [(["Venus", "Moon"], 30, "Creative Arts Yoga"),
         (["Venus", "Rahu"], 25, "Fame/Cinema Yoga")] }),
   ("Law/Judiciary",
    { description := "Lawyer, Judge, Legal Services, Court"
      primary_planets := ["Jupiter", "Saturn", "Sun"]
      secondary_planets := ["Mercury"]
      signs := ["Sagittarius", "Capricorn", "Libra", "Dhanus", "Makara", "Tula"]
      nakshatras := ["Uttara Ashadha", "Uttara Bhadrapada", "Pushya", "Swati"]
      houses := [6, 7, 9, 10]
      combinations :=
        [(["Jupiter", "Saturn"], 30, "Justice Yoga")] }),
   ("Sales/Marketing/Communication",
    { description := "Sales, Marketing, PR, Communication, Consulting"
      primary_planets := ["Mercury", "Venus", "Moon"]
      secondary_planets := ["Jupiter"]
      signs := ["Gemini", "Virgo", "Libra", "Mithuna", "Kanya", "Tula"]
      nakshatras := ["Ashlesha", "Jyeshtha", "Mrigashira", "Ardra"]
      houses := [2, 3, 7, 10, 11]
      combinations :=
        [(["Mercury", "Venus"], 25, "Communication Excellence Yoga")] }),
   ("Sports/Military/Defense",
    { description := "Sports, Military, Police, Defense, Athletics"
      primary_planets := ["Mars", "Sun"]
      secondary_planets := ["Saturn", "Ketu"]
      signs := ["Aries", "Scorpio", "Leo", "Mesha", "Vrishchika", "Simha"]
      nakshatras := ["Mrigashira", "Ardra", "Magha", "Moola", "Dhanishta"]
      houses := [1, 3, 6, 10]
      combinations :=
        [(["Mars", "Sun"], 35, "Warrior Yoga")] })]

/-- `normalize_sign_name` (profession_predictor_v2.py line 138). -/
def normalize_sign_name (sign : String) : String :=
  if sign = "Mesha" then "Aries"
  else if sign = "Rishaba" then "Taurus"
  else if sign = "Mithuna" then "Gemini"
  else if sign = "Kataka" then "Cancer"
  else if sign = "Simha" then "Leo"
  else if sign = "Kanya" then "Virgo"
  else if sign = "Tula" then "Libra"
  else if sign = "Vrishchika" then "Scorpio"
  else if sign = "Vrischika" then "Scorpio"
  else if sign = "Dhanus" then "Sagittarius"
  else if sign = "Makara" then "Capricorn"
  else if sign = "Kumbha" then "Aquarius"
  else if sign = "Meena" then "Pisces"
  else sign

/-- Planet list used by the predictor's loops. -/
def planets9 : List String :=
  ["Sun", "Moon", "Mars", "Mercury", "Jupiter", "Venus", "Saturn", "Rahu", "Ketu"]

/-- `get_planet_house` (profession_predictor_v2.py line 151): first house
1..12 whose rasi matches the planet's rasi, else `None`. -/
def get_planet_house (chart_data : ChartV2) (planet : String) : Option ℕ :=
  let planet_rasi := chart_data (planet.toLower ++ "_rasi")
  if planet_rasi = "" then none
  else
    let pr := normalize_sign_name planet_rasi
    (List.range' 1 12).find? (fun house_num =>
      normalize_sign_name (chart_data ("house_" ++ toString house_num ++ "_rasi")) == pr)

/-- `get_planets_in_house` (profession_predictor_v2.py line 170). -/
def get_planets_in_house (chart_data : ChartV2) (house_num : ℕ) : List String :=
  let house_rasi := chart_data ("house_" ++ toString house_num ++ "_rasi")
  if house_rasi = "" then []
  else
    let hr := normalize_sign_name house_rasi
    planets9.filter (fun planet =>
      normalize_sign_name (chart_data (planet.toLower ++ "_rasi")) == hr)

/-- `detect_yogas` (profession_predictor_v2.py line 188): first the
combinations fully present in the 10th house, then (when a 10th lord and
conjunct planets exist) combinations among the lord and its conjuncts, a
name being added at most once. -/
def detect_yogas (planets_in_10th planets_with_tenth_lord : List String)
    (tenth_lord : String) (cat : ProfessionCategory) : ℤ × List String :=
  let s1 := cat.combinations.foldl
    (fun (acc : ℤ × List String) combo =>
      if combo.1.all (fun p => planets_in_10th.contains p) then
        (acc.1 + combo.2.1, acc.2 ++ [combo.2.2])
      else acc)
    (0, [])
  if tenth_lord ≠ "" ∧ planets_with_tenth_lord ≠ [] then
    let all_relevant := tenth_lord :: planets_with_tenth_lord
    cat.combinations.foldl
      (fun acc combo =>
        if combo.1.all (fun p => all_relevant.contains p) ∧ ¬ acc.2.contains combo.2.2 then
          (acc.1 + combo.2.1, acc.2 ++ [combo.2.2 ++ " (10th lord)"])
        else acc)
      s1
  else s1

/-- The `lords` fallback dict inside `calculate_profession_probabilities_v2`
(profession_predictor_v2.py lines 232-239), as `lords.get(rasi, '')`. -/
def lordsGet (rasi : String) : String :=
  if rasi = "Aries" then "Mars"
  else if rasi = "Taurus" then "Venus"
  else if rasi = "Gemini" then "Mercury"
  else if rasi = "Cancer" then "Moon"
  else if rasi = "Leo" then "Sun"
  else if rasi = "Virgo" then "Mercury"
  else if rasi = "Libra" then "Venus"
  else if rasi = "Scorpio" then "Mars"
  else if rasi = "Sagittarius" then "Jupiter"
  else if rasi = "Capricorn" then "Saturn"
  else if rasi = "Aquarius" then "Saturn"
  else if rasi = "Pisces" then "Jupiter"
  else ""

/-- Score and reasons of one profession category (body of the
`for profession, indicators in PROFESSION_CATEGORIES.items()` loop,
profession_predictor_v2.py lines 258-330), before the final cap/truncation. -/
def category_raw_score (planets_in_10th : List String)
    (tenth_house_rasi tenth_house_nakshatra tenth_lord tenth_lord_nakshatra : String)
    (tenth_lord_house : Option ℕ) (tenth_lord_rasi : String)
    (planets_with_tenth_lord : List String) (indicators : ProfessionCategory) :
    ℚ × List String :=
  let yd := detect_yogas planets_in_10th planets_with_tenth_lord tenth_lord indicators
  let yoga_bonus := yd.1
  let detected_yogas := yd.2
  -- 1) yogas
  let score1 : ℚ := if 0 < yoga_bonus then (yoga_bonus : ℚ)
    else if yoga_bonus < 0 then (yoga_bonus : ℚ) else 0
  let reasons1 : List String :=
    if 0 < yoga_bonus then
      detected_yogas.map (fun yoga => "✨ " ++ yoga ++ " (+" ++ toString yoga_bonus ++ "%)")
    else if yoga_bonus < 0 then
      ["⚠️ " ++ detected_yogas.headD "" ++ " (" ++ toString yoga_bonus ++ "%)"]
    else []
  -- 2) planets in the 10th house
  let step2 := planets_in_10th.foldl
    (fun (acc : ℚ × List String) planet =>
      if indicators.primary_planets.contains planet then
        (acc.1 + 30, acc.2 ++ [planet ++ " in 10th (primary) (+30%)"])
      else if indicators.secondary_planets.contains planet then
        (acc.1 + 15, acc.2 ++ [planet ++ " in 10th (secondary) (+15%)"])
      else acc)
    (score1, reasons1)
  -- 3) 10th house sign
  let step3 :=
    if indicators.signs.contains tenth_house_rasi then
      (step2.1 + 20, step2.2 ++ ["10th in " ++ tenth_house_rasi ++ " (+20%)"])
    else step2
  -- 4) nakshatras, counting only the first matching one
  let relevant_nakshatras :=
    [tenth_lord_nakshatra, tenth_house_nakshatra].filter (fun n => n ≠ "")
  let step4 :=
    match relevant_nakshatras.find? (fun nak => indicators.nakshatras.contains nak) with
    | some nak => (step3.1 + 15, step3.2 ++ ["Nakshatra " ++ nak ++ " (+15%)"])
    | none => step3
  -- 5) 10th lord as primary/secondary planet
  let step5 :=
    if tenth_lord ≠ "" ∧ indicators.primary_planets.contains tenth_lord then
      (step4.1 + 25, step4.2 ++ [tenth_lord ++ " as 10th lord (+25%)"])
    else if tenth_lord ≠ "" ∧ indicators.secondary_planets.contains tenth_lord then
      (step4.1 + 15, step4.2 ++ [tenth_lord ++ " as 10th lord (+15%)"])
    else step4
  -- 6) 10th lord in a profession-relevant sign
  let step6 :=
    if indicators.signs.contains tenth_lord_rasi then
      (step5.1 + 20, step5.2 ++ ["10th lord in " ++ tenth_lord_rasi ++ " (+20%)"])
    else step5
  -- 7) planets conjunct the 10th lord
  let step7 := planets_with_tenth_lord.foldl
    (fun (acc : ℚ × List String) planet =>
      if indicators.primary_planets.contains planet then
        (acc.1 + 25, acc.2 ++ [planet ++ " with 10th lord (+25%)"])
      else if indicators.secondary_planets.contains planet then
        (acc.1 + 15, acc.2 ++ [planet ++ " with 10th lord (+15%)"])
      else acc)
    step6
  -- 8) 10th lord house position (`if tenth_lord_house and ...`: the house,
  -- when found, is in 1..12, so Python truthiness is just presence)
  match tenth_lord_house with
  | some h =>
    if h ∈ [1, 2, 4, 5, 7, 9, 10, 11] then
      (step7.1 + 10, step7.2 ++ ["10th lord in " ++ toString h ++ "th house (+10%)"])
    else step7
  | none => step7

/-- `calculate_profession_probabilities_v2` (profession_predictor_v2.py
line 214): scores every category, caps at 100, keeps the top 4 reasons and
sorts descending by score (Python's stable `list.sort` with
`reverse=True`, modelled by a stable merge sort with the reversed
comparison). -/
def calculate_profession_probabilities_v2 (chart_data : ChartV2) :
    List (String × ℚ × List String) :=
  let planets_in_10th := get_planets_in_house chart_data 10
  let tenth_house_rasi := normalize_sign_name (chart_data "house_10_rasi")
  let tenth_house_nakshatra := chart_data "house_10_nakshatra"
  let tl0 := chart_data "tenth_lord"
  let tenth_lord := if tl0 = "" then lordsGet tenth_house_rasi else tl0
  let tenth_lord_nakshatra :=
    if tenth_lord ≠ "" then chart_data (tenth_lord.toLower ++ "_nakshatra") else ""
  let tenth_lord_house :=
    if tenth_lord ≠ "" then get_planet_house chart_data tenth_lord else none
  let tenth_lord_rasi :=
    if tenth_lord ≠ "" then normalize_sign_name (chart_data (tenth_lord.toLower ++ "_rasi"))
    else ""
  let planets_with_tenth_lord :=
    if tenth_lord ≠ "" ∧ tenth_lord_rasi ≠ "" then
      planets9.filter (fun planet =>
        planet ≠ tenth_lord ∧
        normalize_sign_name (chart_data (planet.toLower ++ "_rasi")) = tenth_lord_rasi)
    else []
  let results := PROFESSION_CATEGORIES.map (fun entry =>
    let sr := category_raw_score planets_in_10th tenth_house_rasi
      tenth_house_nakshatra tenth_lord tenth_lord_nakshatra tenth_lord_house
      tenth_lord_rasi planets_with_tenth_lord entry.2
    (entry.1, min sr.1 100, sr.2.take 4))
  results.mergeSort (fun a b => decide (b.2.1 ≤ a.2.1))

end ProfessionPredictorV2

/-- Concrete chart for exercising the zero-Ascendant behaviour: Ascendant
longitude exactly 0.0 and every planet longitude present (100.0). -/
def chartZeroAsc : AspectsCalculator.ChartData :=
  fun key => if key = "ascendant_longitude" then some 0 else some 100

/-- Fully populated positions placing every reference point in rasi 1,
used to witness the SAV total. -/
def posAllOne : Ashtakavarga.Positions := fun _ => some 1

namespace DashaCalculator

/-- Duration taken by iteration `j` of one cycle of `generate_dasa_table`'s
inner loop started at `current_index`: `remaining_years` at the cycle's
first slot (`i == current_index`), the planet's full duration otherwise. -/
def cycleDur (remaining_years : ℚ) (current_index j : ℕ) : ℚ :=
  if j = 0 then remaining_years else durationOf (planetAt ((current_index + j) % 9))

/-- Loop invariant of the `generate_dasa_table` state: the recorded ages
chain up exactly (each row's `end_age` is the next row's `start_age`), each
row's `start_age` is at most its `end_age`, the first row starts at age 0,
and the last row's `end_age` is the rounding of the running
`current_year` (which is 0 while no row exists). -/
def TableInv (s : DasaGenState) : Prop :=
  List.Chain' (fun a b => a.end_age = b.start_age) s.table ∧
  (∀ rec ∈ s.table, rec.start_age ≤ rec.end_age) ∧
  (∀ h0, s.table.head? = some h0 → h0.start_age = 0) ∧
  (s.table = [] → s.current_year = 0) ∧
  (∀ rec, s.table.getLast? = some rec → rec.end_age = round2 s.current_year)

end DashaCalculator

/-! ## Helper lemmas -/

open AspectsCalculator D9Navamsha D10Dasamsa Ashtakavarga CareerRules DashaCalculator
  ProfessionPredictorV2

theorem pymod_nonneg (a : ℚ) {b : ℚ} (hb : 0 < b) : 0 ≤ pymod a b := by
  unfold pymod
  have h1 : ((⌊a / b⌋ : ℚ)) ≤ a / b := Int.floor_le _
  have h2 : b * ((⌊a / b⌋ : ℚ)) ≤ b * (a / b) := mul_le_mul_of_nonneg_left h1 hb.le
  rw [mul_div_cancel₀ a hb.ne'] at h2
  linarith

theorem pymod_lt (a : ℚ) {b : ℚ} (hb : 0 < b) : pymod a b < b := by
  unfold pymod
  have h1 : a / b < (⌊a / b⌋ : ℚ) + 1 := Int.lt_floor_add_one _
  have h2 : b * (a / b) < b * ((⌊a / b⌋ : ℚ) + 1) := by
    exact mul_lt_mul_of_pos_left h1 hb
  rw [mul_div_cancel₀ a hb.ne'] at h2
  nlinarith

theorem pytrunc_of_nonneg {q : ℚ} (h : 0 ≤ q) : pytrunc q = ⌊q⌋ := by
  simp [pytrunc, h]

theorem pytrunc_nonneg {q : ℚ} (h : 0 ≤ q) : 0 ≤ pytrunc q := by
  rw [pytrunc_of_nonneg h]
  exact Int.floor_nonneg.mpr h

/-! ## C3: career verdict aggregation -/

/-- C3: the verdict strength is `"strong"` exactly when the mean of all
recorded scores is ≥ 0.7, `"moderate"` when the mean is ≥ 0.4 but < 0.7,
`"weak"` otherwise; with no recorded scores the verdict is `"moderate"`,
and a verdict string is always produced. -/
theorem career_strength_verdict_spec (scores : List ℚ) :
    (career_strength_verdict scores = "strong" ↔
      scores ≠ [] ∧ 7/10 ≤ scoresMean scores) ∧
    (career_strength_verdict scores = "moderate" ↔
      scores = [] ∨ (scores ≠ [] ∧ 4/10 ≤ scoresMean scores ∧ scoresMean scores < 7/10)) ∧
    (career_strength_verdict scores = "weak" ↔
      scores ≠ [] ∧ scoresMean scores < 4/10) ∧
    (career_strength_verdict scores = "strong" ∨
      career_strength_verdict scores = "moderate" ∨
      career_strength_verdict scores = "weak") := by
  unfold career_strength_verdict scoresMean
  by_cases h : scores = []
  · subst h
    simp
  · have hpos : 0 < scores.length := List.length_pos.mpr h
    have hmax : (max scores.length 1 : ℕ) = scores.length := by omega
    rw [hmax]
    simp only [h, if_false]
    split_ifs with h1 h2 <;> simp_all <;> linarith

/-! ## C4: directional aspects -/

/-- Aspect-offset sets exactly as claim C4 words them (`+7` for everyone,
Mars `+4/+8`, Jupiter `+5/+9`, Saturn `+3/+10`), used to state the claim's
"(H−P) mod 12 equals 0 (occupation) or lies in the aspect-offset set". -/
def claimed_aspect_offsets (planet : String) : Finset ℤ :=
  if planet = "Mars" then {7, 4, 8}
  else if planet = "Jupiter" then {7, 5, 9}
  else if planet = "Saturn" then {7, 3, 10}
  else {7}

/-- Aspect offsets the code actually implements, as forward distances
`(H − P) mod 12`: the "7th house" is 6 positions ahead, Mars's 4th/8th are
3 and 7 ahead, Jupiter's 5th/9th are 4 and 8 ahead, Saturn's 3rd/10th are
2 and 9 ahead; occupation (distance 0) is never an aspect. -/
def code_aspect_offsets (planet : String) : Finset ℤ :=
  if planet = "Mars" then {6, 3, 7}
  else if planet = "Jupiter" then {6, 4, 8}
  else if planet = "Saturn" then {6, 2, 9}
  else {6}

/-- C4 counterexample: for the Sun at house 1 and target house 1 we have
(H−P) mod 12 = 0, so the claim asserts an aspect (occupation), but
`get_planet_aspects` reports none — the claimed equivalence is false. -/
theorem get_planet_aspects_claim_false :
    ¬ ((1:ℤ) ∈ get_planet_aspects "Sun" 1 ↔
      ((1:ℤ) - 1) % 12 = 0 ∨ ((1:ℤ) - 1) % 12 ∈ claimed_aspect_offsets "Sun") := by
  decide

/-- C4 amended: for every planet name and houses P, H in 1–12, the planet
at house P aspects house H iff (H−P) mod 12 lies in the planet's
aspect-offset set counted as forward distances — 6 for every planet's 7th
aspect, plus 3/7 for Mars, 4/8 for Jupiter, 2/9 for Saturn; occupation
((H−P) mod 12 = 0) is not reported as an aspect. -/
theorem get_planet_aspects_spec (planet : String) (P H : ℤ)
    (hP1 : 1 ≤ P) (hP2 : P ≤ 12) (hH1 : 1 ≤ H) (hH2 : H ≤ 12) :
    H ∈ get_planet_aspects planet P ↔ (H - P) % 12 ∈ code_aspect_offsets planet := by
  unfold get_planet_aspects code_aspect_offsets get_nth_house_from
  split_ifs <;>
    simp only [Finset.mem_union, Finset.mem_insert, Finset.mem_singleton] <;>
    omega

/-- Witness for C4's amended theorem at Mars in house 11, target house 2
(Mars's 4th aspect: (2 − 11) mod 12 = 3). -/
theorem get_planet_aspects_spec_witness :
    (1 ≤ (11:ℤ) ∧ (11:ℤ) ≤ 12 ∧ 1 ≤ (2:ℤ) ∧ (2:ℤ) ≤ 12) ∧
    ((2:ℤ) ∈ get_planet_aspects "Mars" 11 ↔
      ((2:ℤ) - 11) % 12 ∈ code_aspect_offsets "Mars") :=
  ⟨⟨by norm_num, by norm_num, by norm_num, by norm_num⟩,
    get_planet_aspects_spec "Mars" 11 2 (by norm_num) (by norm_num) (by norm_num) (by norm_num)⟩

/-! ## C10: zero/absent Ascendant short-circuits aspect queries -/

/-- C10: when the Ascendant longitude is exactly 0.0 or the key is absent,
`get_planets_aspecting_house` and `get_planets_aspecting_planet` return the
empty list for every target (and `get_all_planetary_aspects` is empty),
regardless of which planet longitudes are present: Python truthiness
treats the valid longitude 0° like a missing Ascendant. -/
theorem aspects_zero_ascendant_empty (chart : ChartData)
    (h : chart "ascendant_longitude" = some 0 ∨ chart "ascendant_longitude" = none) :
    (∀ target_house : ℤ, get_planets_aspecting_house target_house chart = []) ∧
    (∀ target_planet : String, get_planets_aspecting_planet target_planet chart = []) ∧
    get_all_planetary_aspects chart = [] := by
  have hhouse : ∀ target_house : ℤ, get_planets_aspecting_house target_house chart = [] := by
    intro t
    unfold get_planets_aspecting_house
    rcases h with h | h <;> rw [h] <;> simp
  refine ⟨hhouse, ?_, ?_⟩
  · intro target
    unfold get_planets_aspecting_planet
    cases hc : chart (target.toLower ++ "_longitude") with
    | none => rfl
    | some v =>
      rcases h with h | h <;> rw [h] <;> simp [hhouse]
  · unfold get_all_planetary_aspects
    rcases h with h | h <;> rw [h] <;> simp

/-- Witness for C10 at a chart with Ascendant 0.0 and all planet
longitudes present. -/
theorem aspects_zero_ascendant_empty_witness :
    (chartZeroAsc "ascendant_longitude" = some 0 ∨
      chartZeroAsc "ascendant_longitude" = none) ∧
    ((∀ target_house : ℤ, get_planets_aspecting_house target_house chartZeroAsc = []) ∧
     (∀ target_planet : String, get_planets_aspecting_planet target_planet chartZeroAsc = []) ∧
     get_all_planetary_aspects chartZeroAsc = []) :=
  ⟨Or.inl (by simp [chartZeroAsc]),
    aspects_zero_ascendant_empty chartZeroAsc (Or.inl (by simp [chartZeroAsc]))⟩

/-! ## C5: 9-fold (Navamsha) transform -/

/-- C5: for every longitude, the 9-fold destination rasi equals
`(base rasi + offset + part) mod 12` with
`part = clamp(floor(degrees-in-sign/(30/9)), 0, 8)` and the motion-class
offset (movable 0, fixed 8, dual 4); and for a movable-class base rasi at
part 0 the destination rasi equals the base rasi of the longitude. -/
theorem d9_rasi_index_spec (L : ℚ) :
    d1_longitude_to_d9_rasi_index L =
      (⌊pymod L 360 / 30⌋ % 12 + navamsaStartOffset (⌊pymod L 360 / 30⌋ % 12) +
        min (max ⌊pymod (pymod L 360) 30 / (30 / 9)⌋ 0) 8) % 12 ∧
    (navamsaStartOffset (⌊pymod L 360 / 30⌋ % 12) = 0 →
      min (max ⌊pymod (pymod L 360) 30 / (30 / 9)⌋ 0) 8 = 0 →
      d1_longitude_to_d9_rasi_index L = ⌊pymod L 360 / 30⌋ % 12) := by
  have h30 : (0:ℚ) < 30 := by norm_num
  have hd0 : 0 ≤ pymod (pymod L 360) 30 := pymod_nonneg _ h30
  have hdiv0 : 0 ≤ pymod (pymod L 360) 30 / (30 / 9 : ℚ) := by positivity
  have hfl0 : 0 ≤ ⌊pymod (pymod L 360) 30 / (30 / 9 : ℚ)⌋ := Int.floor_nonneg.mpr hdiv0
  have hmain : d1_longitude_to_d9_rasi_index L =
      (⌊pymod L 360 / 30⌋ % 12 + navamsaStartOffset (⌊pymod L 360 / 30⌋ % 12) +
        min (max ⌊pymod (pymod L 360) 30 / (30 / 9)⌋ 0) 8) % 12 := by
    simp only [d1_longitude_to_d9_rasi_index]
    rw [pytrunc_of_nonneg hdiv0]
    congr 1
    omega
  refine ⟨hmain, fun hoff hpart => ?_⟩
  rw [hmain, hoff, hpart]
  omega

/-- Witness for C5's movable-class clause at longitude 1° (base rasi 0,
movable, part 0). -/
theorem d9_rasi_index_spec_witness :
    navamsaStartOffset (⌊pymod 1 360 / 30⌋ % 12) = 0 ∧
    min (max ⌊pymod (pymod 1 360) 30 / (30 / 9)⌋ 0) 8 = 0 ∧
    d1_longitude_to_d9_rasi_index 1 = ⌊pymod 1 360 / 30⌋ % 12 := by
  have h1 : pymod 1 360 = 1 := by norm_num [pymod]
  have h2 : pymod (pymod 1 360) 30 = 1 := by rw [h1]; norm_num [pymod]
  have hoff : navamsaStartOffset (⌊pymod 1 360 / 30⌋ % 12) = 0 := by
    rw [h1]; norm_num [navamsaStartOffset]
  have hpart : min (max ⌊pymod (pymod 1 360) 30 / (30 / 9)⌋ 0) 8 = 0 := by
    rw [h2]; norm_num
  exact ⟨hoff, hpart, (d9_rasi_index_spec 1).2 hoff hpart⟩

/-! ## C6: 10-fold (Dasamsa) transform -/

/-- C6: for every longitude, the 10-fold destination rasi is
`(base + part) mod 12` for even base-rasi indices and
`(base + 8 + part) mod 12` for odd ones, with
`part = clamp(floor(degrees-in-sign/3), 0, 9)`; and a body at 15° (first,
movable rasi) has part 5 and destination rasi index 5. -/
theorem d10_rasi_index_spec (L : ℚ) :
    (d10_rasi_index_of L =
      (if ⌊pymod L 360 / 30⌋ % 12 % 2 = 0 then
        (⌊pymod L 360 / 30⌋ % 12 + min (max ⌊pymod (pymod L 360) 30 / 3⌋ 0) 9) % 12
      else
        (⌊pymod L 360 / 30⌋ % 12 + 8 + min (max ⌊pymod (pymod L 360) 30 / 3⌋ 0) 9) % 12)) ∧
    min (max ⌊pymod (pymod (15:ℚ) 360) 30 / 3⌋ 0) 9 = 5 ∧
    d10_rasi_index_of 15 = 5 := by
  have h30 : (0:ℚ) < 30 := by norm_num
  have hd0 : 0 ≤ pymod (pymod L 360) 30 := pymod_nonneg _ h30
  have hdiv0 : 0 ≤ pymod (pymod L 360) 30 / (3 : ℚ) := by positivity
  have hfl0 : 0 ≤ ⌊pymod (pymod L 360) 30 / (3 : ℚ)⌋ := Int.floor_nonneg.mpr hdiv0
  have hmain : d10_rasi_index_of L =
      (if ⌊pymod L 360 / 30⌋ % 12 % 2 = 0 then
        (⌊pymod L 360 / 30⌋ % 12 + min (max ⌊pymod (pymod L 360) 30 / 3⌋ 0) 9) % 12
      else
        (⌊pymod L 360 / 30⌋ % 12 + 8 + min (max ⌊pymod (pymod L 360) 30 / 3⌋ 0) 9) % 12) := by
    simp only [d10_rasi_index_of]
    rw [pytrunc_of_nonneg hdiv0]
    split_ifs with h <;> omega
  have h15a : pymod (15:ℚ) 360 = 15 := by norm_num [pymod]
  have h15b : pymod (pymod (15:ℚ) 360) 30 = 15 := by rw [h15a]; norm_num [pymod]
  have h15f : ⌊pymod (pymod (15:ℚ) 360) 30 / 3⌋ = 5 := by rw [h15b]; norm_num
  have hpart15 : min (max ⌊pymod (pymod (15:ℚ) 360) 30 / 3⌋ 0) 9 = 5 := by
    rw [h15f]; norm_num
  have h15c : pymod (15:ℚ) 30 = 15 := by norm_num [pymod]
  have hval15 : d10_rasi_index_of 15 = 5 := by
    simp only [d10_rasi_index_of]
    rw [h15a, h15c]
    norm_num [pytrunc]
  exact ⟨hmain, hpart15, hval15⟩

/-! ## C7: harmonic transforms stay in [0, 360) -/

theorem d9_rasi_index_bounds (M : ℚ) :
    0 ≤ d1_longitude_to_d9_rasi_index M ∧ d1_longitude_to_d9_rasi_index M < 12 := by
  simp only [d1_longitude_to_d9_rasi_index]
  omega

theorem d10_rasi_index_bounds (M : ℚ) :
    0 ≤ d10_rasi_index_of M ∧ d10_rasi_index_of M < 12 := by
  simp only [d10_rasi_index_of]
  split_ifs <;> omega

/-- C7: for every real longitude (including values outside `[0, 360)`),
both the 9-fold and the 10-fold derived longitudes lie in `[0, 360)`. -/
theorem harmonic_longitudes_in_range (L : ℚ) :
    (0 ≤ d1_longitude_to_d9_longitude L ∧ d1_longitude_to_d9_longitude L < 360) ∧
    (0 ≤ d1_longitude_to_d10 L ∧ d1_longitude_to_d10 L < 360) := by
  have h30 : (0:ℚ) < 30 := by norm_num
  have h360 : (0:ℚ) < 360 := by norm_num
  have h3 : (0:ℚ) < 3 := by norm_num
  constructor
  · -- D9 longitude
    have hd0 : 0 ≤ pymod (pymod L 360) 30 := pymod_nonneg _ h30
    have hd1 : pymod (pymod L 360) 30 < 30 := pymod_lt _ h30
    have hdiv0 : 0 ≤ pymod (pymod L 360) 30 / NAVAMSA_PART_SIZE := by
      unfold NAVAMSA_PART_SIZE; positivity
    have htr : pytrunc (pymod (pymod L 360) 30 / NAVAMSA_PART_SIZE) =
        ⌊pymod (pymod L 360) 30 / NAVAMSA_PART_SIZE⌋ := pytrunc_of_nonneg hdiv0
    have hrb := d9_rasi_index_bounds (pymod L 360)
    set deg := pymod (pymod L 360) 30 with hdegdef
    set p0 := ⌊deg / NAVAMSA_PART_SIZE⌋ with hp0
    have hfl_le : (p0 : ℚ) ≤ deg / NAVAMSA_PART_SIZE := Int.floor_le _
    have hfl_lt : deg / NAVAMSA_PART_SIZE < (p0 : ℚ) + 1 := Int.lt_floor_add_one _
    have hps : (0:ℚ) < NAVAMSA_PART_SIZE := by unfold NAVAMSA_PART_SIZE; norm_num
    have hp00 : 0 ≤ p0 := Int.floor_nonneg.mpr hdiv0
    have hp0le : p0 ≤ 8 := by
      by_contra hc
      push_neg at hc
      have h9 : (9:ℚ) ≤ (p0:ℚ) := by exact_mod_cast hc
      have h9d : (9:ℚ) ≤ deg / NAVAMSA_PART_SIZE := le_trans h9 hfl_le
      have h9m : 9 * NAVAMSA_PART_SIZE ≤ deg := (le_div_iff hps).mp h9d
      unfold NAVAMSA_PART_SIZE at h9m
      nlinarith
    simp only [d1_longitude_to_d9_longitude, htr, ← hdegdef, ← hp0]
    have hif : (if 9 ≤ p0 then (8:ℤ) else p0) = p0 := by omega
    rw [hif]
    have hpos0 : 0 ≤ deg - (p0:ℚ) * NAVAMSA_PART_SIZE := by
      have := (le_div_iff hps).mp hfl_le
      linarith
    have hpos1 : deg - (p0:ℚ) * NAVAMSA_PART_SIZE < NAVAMSA_PART_SIZE := by
      have := (div_lt_iff hps).mp hfl_lt
      nlinarith
    have hscale : (0:ℚ) < 30 / NAVAMSA_PART_SIZE := by
      unfold NAVAMSA_PART_SIZE; norm_num
    have hcast0 : (0:ℚ) ≤ ((d1_longitude_to_d9_rasi_index (pymod L 360) : ℤ) : ℚ) := by
      exact_mod_cast hrb.1
    have hcast1 : ((d1_longitude_to_d9_rasi_index (pymod L 360) : ℤ) : ℚ) ≤ 11 := by
      have : d1_longitude_to_d9_rasi_index (pymod L 360) ≤ 11 := by omega
      exact_mod_cast this
    constructor
    · have : (0:ℚ) ≤ (deg - (p0:ℚ) * NAVAMSA_PART_SIZE) * (30 / NAVAMSA_PART_SIZE) :=
        mul_nonneg hpos0 hscale.le
      nlinarith
    · have hlt : (deg - (p0:ℚ) * NAVAMSA_PART_SIZE) * (30 / NAVAMSA_PART_SIZE) <
          NAVAMSA_PART_SIZE * (30 / NAVAMSA_PART_SIZE) :=
        mul_lt_mul_of_pos_right hpos1 hscale
      have heq : NAVAMSA_PART_SIZE * (30 / NAVAMSA_PART_SIZE) = 30 := by
        unfold NAVAMSA_PART_SIZE; norm_num
      nlinarith
  · -- D10 longitude
    have hd0 : 0 ≤ pymod (pymod (pymod L 360) 30) 3 := pymod_nonneg _ h3
    have hd1 : pymod (pymod (pymod L 360) 30) 3 < 3 := pymod_lt _ h3
    have hrb := d10_rasi_index_bounds L
    have hcast0 : (0:ℚ) ≤ ((d10_rasi_index_of L : ℤ) : ℚ) := by exact_mod_cast hrb.1
    have hcast1 : ((d10_rasi_index_of L : ℤ) : ℚ) ≤ 11 := by
      have : d10_rasi_index_of L ≤ 11 := by omega
      exact_mod_cast this
    simp only [d1_longitude_to_d10]
    constructor
    · nlinarith
    · nlinarith

/-! ## C2: Sarvashtakavarga totals 337 -/

theorem list_sum_map_add {β : Type} (l : List β) (f g : β → ℤ) :
    (l.map (fun x => f x + g x)).sum = (l.map f).sum + (l.map g).sum := by
  induction l with
  | nil => simp
  | cons a as ih => simp [ih]; ring

theorem list_sum_comm {α β : Type} (l1 : List α) (l2 : List β) (f : α → β → ℤ) :
    (l1.map (fun a => (l2.map (f a)).sum)).sum =
      (l2.map (fun b => (l1.map (fun a => f a b)).sum)).sum := by
  induction l1 with
  | nil => simp
  | cons a as ih =>
    simp only [List.map_cons, List.sum_cons, ih]
    rw [← list_sum_map_add]

/-- Bindu count contributed by one reference point across the 12 houses:
when the reference sits in a rasi 1..12, the relative positions sweep all
of 1..12 bijectively, so the count is the size of the benefic set. -/
theorem bindu_count_per_ref : ∀ t ∈ savPlanets, ∀ ref ∈ refPoints, ∀ v ∈ houseNums,
    (houseNums.map (fun h =>
      if calculate_relative_position_tamil h v ∈ TAMIL_ASHTAKAVARGA_RULES t ref
      then (1:ℤ) else 0)).sum = ((TAMIL_ASHTAKAVARGA_RULES t ref).length : ℤ) := by
  decide

/-- C2: for every assignment of rasi numbers 1–12 to all 8 reference
points, the SAV grid summed across its 12 houses is exactly 337,
independent of the positions. -/
theorem sav_total_eq_337 (pos : Ashtakavarga.Positions)
    (hpos : ∀ ref, ∃ v, pos ref = some v ∧ v ∈ houseNums) :
    sav_total pos = 337 := by
  have hper : ∀ p ∈ savPlanets,
      (houseNums.map (fun h => bav_house_points p pos h)).sum =
      (refPoints.map (fun ref => ((TAMIL_ASHTAKAVARGA_RULES p ref).length : ℤ))).sum := by
    intro p hp
    have swap := list_sum_comm houseNums refPoints (fun h ref =>
      match pos ref with
      | none => 0
      | some reference_rasi =>
        if calculate_relative_position_tamil h reference_rasi ∈
            TAMIL_ASHTAKAVARGA_RULES p ref then (1:ℤ) else 0)
    calc (houseNums.map (fun h => bav_house_points p pos h)).sum
        = (refPoints.map (fun ref => (houseNums.map (fun h =>
            match pos ref with
            | none => 0
            | some reference_rasi =>
              if calculate_relative_position_tamil h reference_rasi ∈
                  TAMIL_ASHTAKAVARGA_RULES p ref then (1:ℤ) else 0)).sum)).sum := by
          simpa only [bav_house_points] using swap
      _ = (refPoints.map (fun ref => ((TAMIL_ASHTAKAVARGA_RULES p ref).length : ℤ))).sum := by
          apply congrArg List.sum
          apply List.map_congr_left
          intro ref href
          obtain ⟨v, hv, hvmem⟩ := hpos ref
          simp only [hv]
          exact bindu_count_per_ref p hp ref href v hvmem
  calc sav_total pos
      = (savPlanets.map (fun p =>
          (houseNums.map (fun h => bav_house_points p pos h)).sum)).sum := by
        simpa only [sav_total, calculate_sarvashtakavarga_chart] using
          list_sum_comm houseNums savPlanets (fun h p => bav_house_points p pos h)
    _ = (savPlanets.map (fun p =>
          (refPoints.map (fun ref => ((TAMIL_ASHTAKAVARGA_RULES p ref).length : ℤ))).sum)).sum := by
        apply congrArg List.sum
        exact List.map_congr_left hper
    _ = 337 := by decide

/-- Witness for C2 with every reference point in rasi 1. -/
theorem sav_total_eq_337_witness :
    (∀ ref, ∃ v, posAllOne ref = some v ∧ v ∈ houseNums) ∧ sav_total posAllOne = 337 :=
  ⟨fun ref => ⟨1, rfl, by decide⟩,
    sav_total_eq_337 posAllOne (fun ref => ⟨1, rfl, by decide⟩)⟩

/-! ## C9: profession scores capped at 100 and sorted descending -/

/-- C9: for every input chart, every profession category's returned score
is at most 100 (stated via a boolean `all` over the result list), and the
returned list of (profession, score, reasons) triples is sorted in
descending score order. -/
theorem profession_probabilities_capped_sorted (chart : ChartV2) :
    ((calculate_profession_probabilities_v2 chart).all
      (fun t => decide (t.2.1 ≤ 100))) = true ∧
    List.Pairwise (fun a b => b.2.1 ≤ a.2.1)
      (calculate_profession_probabilities_v2 chart) := by
  constructor
  · rw [List.all_eq_true]
    intro t ht
    simp only [calculate_profession_probabilities_v2, List.mem_mergeSort] at ht
    obtain ⟨entry, _, rfl⟩ := List.mem_map.mp ht
    simpa using min_le_right _ (100 : ℚ)
  · have h := @List.sorted_mergeSort (String × ℚ × List String)
      (fun a b => decide (b.2.1 ≤ a.2.1))
      (fun a b c hab hbc => by
        simp only [decide_eq_true_eq] at *
        exact le_trans hbc hab)
      (fun a b => by
        simp only [Bool.or_eq_true, decide_eq_true_eq]
        exact le_total b.2.1 a.2.1)
    simp only [calculate_profession_probabilities_v2]
    exact (h _).imp (fun hab => of_decide_eq_true hab)

/-! ## Dasha generator: rounding lemmas -/

theorem round_half_even_ge_floor (x : ℚ) : ⌊x⌋ ≤ round_half_even x := by
  simp only [round_half_even]
  split_ifs <;> omega

theorem round_half_even_le_floor_add_one (x : ℚ) : round_half_even x ≤ ⌊x⌋ + 1 := by
  simp only [round_half_even]
  split_ifs <;> omega

theorem round_half_even_mono {x y : ℚ} (h : x ≤ y) : round_half_even x ≤ round_half_even y := by
  have hf : ⌊x⌋ ≤ ⌊y⌋ := Int.floor_le_floor h
  rcases eq_or_lt_of_le hf with heq | hlt
  · have hr : x - (⌊x⌋ : ℚ) ≤ y - (⌊y⌋ : ℚ) := by
      have hc : ((⌊x⌋ : ℤ) : ℚ) = ((⌊y⌋ : ℤ) : ℚ) := by rw [heq]
      linarith
    simp only [round_half_even]
    split_ifs <;> first | omega | linarith
  · calc round_half_even x ≤ ⌊x⌋ + 1 := round_half_even_le_floor_add_one x
      _ ≤ ⌊y⌋ := by omega
      _ ≤ round_half_even y := round_half_even_ge_floor y

theorem round2_mono {x y : ℚ} (h : x ≤ y) : round2 x ≤ round2 y := by
  unfold round2
  have : round_half_even (x * 100) ≤ round_half_even (y * 100) :=
    round_half_even_mono (by linarith)
  have hc : ((round_half_even (x * 100) : ℤ) : ℚ) ≤ ((round_half_even (y * 100) : ℤ) : ℚ) := by
    exact_mod_cast this
  linarith

theorem round2_int_le {n : ℤ} {x : ℚ} (h : (n : ℚ) ≤ x) : (n : ℚ) ≤ round2 x := by
  unfold round2
  have h1 : (100 * n : ℤ) ≤ ⌊x * 100⌋ := by
    rw [Int.le_floor]
    push_cast
    linarith
  have h2 : (100 * n : ℤ) ≤ round_half_even (x * 100) :=
    le_trans h1 (round_half_even_ge_floor _)
  have h3 : ((100 * n : ℤ) : ℚ) ≤ ((round_half_even (x * 100) : ℤ) : ℚ) := by exact_mod_cast h2
  push_cast at h3
  linarith

theorem round2_zero : round2 0 = 0 := by
  simp only [round2, round_half_even]
  norm_num

/-! ## Dasha generator: duration table lemmas -/

theorem durationOf_bounds (p : String) : 0 ≤ durationOf p ∧ durationOf p ≤ 20 := by
  unfold durationOf
  cases hf : DASA_DURATIONS.find? (fun x => x.1 == p) with
  | none => simp
  | some e =>
    have hmem := List.mem_of_find?_eq_some hf
    simp only [DASA_DURATIONS, List.mem_cons, List.not_mem_nil, or_false] at hmem
    rcases hmem with h | h | h | h | h | h | h | h | h <;> subst h <;> norm_num

/-! ## Dasha generator: loop-step lemmas -/

theorem dasaInnerLoop_stop {t : ℤ} {r : ℚ} {ci : ℕ} {js : List ℕ} {s : DasaGenState}
    (h : (t : ℚ) ≤ s.current_year) : dasaInnerLoop t r ci js s = s := by
  cases js with
  | nil => rfl
  | cons j js => simp only [dasaInnerLoop, if_pos h]

theorem dasaInnerLoop_cons_lt (t : ℤ) (r : ℚ) (ci j : ℕ) (js : List ℕ) (s : DasaGenState)
    (h : s.current_year < (t : ℚ)) :
    dasaInnerLoop t r ci (j :: js) s =
      dasaInnerLoop t r ci js
        { current_year := s.current_year + cycleDur r ci j
          start_date := s.start_date + cycleDur r ci j * (1461 / 4)
          table := s.table ++
            [{ planet := planetAt ((ci + j) % 9)
               start_age := round2 s.current_year
               end_age := round2 (s.current_year + cycleDur r ci j)
               start_date := s.start_date
               end_date := s.start_date + cycleDur r ci j * (1461 / 4)
               duration := round2 (cycleDur r ci j) }] } := by
  simp only [dasaInnerLoop, if_neg (not_le.mpr h), cycleDur]

theorem dasaWhileLoop_stop {t : ℤ} {r : ℚ} {f ci : ℕ} {s : DasaGenState}
    (h : ¬ s.current_year < (t : ℚ)) : dasaWhileLoop t r f ci s = s := by
  cases f with
  | zero => rfl
  | succ f => simp only [dasaWhileLoop, if_neg h]

theorem dasaWhileLoop_succ {t : ℤ} {r : ℚ} (f ci : ℕ) {s : DasaGenState}
    (h : s.current_year < (t : ℚ)) :
    dasaWhileLoop t r (f + 1) ci s =
      dasaWhileLoop t r f 0 (dasaInnerLoop t r ci (List.range 9) s) := by
  simp only [dasaWhileLoop, if_pos h]

theorem dasaInnerLoop_year (t : ℤ) (r : ℚ) (ci : ℕ) :
    ∀ (js : List ℕ) (s : DasaGenState),
    (t : ℚ) ≤ (dasaInnerLoop t r ci js s).current_year ∨
    (dasaInnerLoop t r ci js s).current_year =
      s.current_year + (js.map (cycleDur r ci)).sum := by
  intro js
  induction js with
  | nil => intro s; right; simp [dasaInnerLoop]
  | cons j js ih =>
    intro s
    by_cases h : (t : ℚ) ≤ s.current_year
    · left
      rw [dasaInnerLoop_stop h]
      exact h
    · rw [dasaInnerLoop_cons_lt t r ci j js s (not_le.mp h)]
      rcases ih _ with h1 | h1
      · left; exact h1
      · right
        rw [h1]
        simp only [List.map_cons, List.sum_cons]
        ring

theorem dasaInnerLoop_length_le (t : ℤ) (r : ℚ) (ci : ℕ) :
    ∀ (js : List ℕ) (s : DasaGenState),
    (dasaInnerLoop t r ci js s).table.length ≤ s.table.length + js.length := by
  intro js
  induction js with
  | nil => intro s; simp [dasaInnerLoop]
  | cons j js ih =>
    intro s
    by_cases h : (t : ℚ) ≤ s.current_year
    · rw [dasaInnerLoop_stop h]; simp
    · rw [dasaInnerLoop_cons_lt t r ci j js s (not_le.mp h)]
      calc (dasaInnerLoop t r ci js _).table.length
          ≤ (s.table ++ [_]).length + js.length := ih _
        _ = s.table.length + (j :: js).length := by simp [List.length_append]; omega

theorem durationOf_planetAt_0 : durationOf (planetAt 0) = 7 := rfl
theorem durationOf_planetAt_1 : durationOf (planetAt 1) = 20 := rfl
theorem durationOf_planetAt_2 : durationOf (planetAt 2) = 6 := rfl
theorem durationOf_planetAt_3 : durationOf (planetAt 3) = 10 := rfl
theorem durationOf_planetAt_4 : durationOf (planetAt 4) = 7 := rfl
theorem durationOf_planetAt_5 : durationOf (planetAt 5) = 18 := rfl
theorem durationOf_planetAt_6 : durationOf (planetAt 6) = 16 := rfl
theorem durationOf_planetAt_7 : durationOf (planetAt 7) = 19 := rfl
theorem durationOf_planetAt_8 : durationOf (planetAt 8) = 17 := rfl

theorem cycle_sum_ge (r : ℚ) (hr : 0 ≤ r) (ci : ℕ) :
    r + 100 ≤ ((List.range 9).map (cycleDur r ci)).sum := by
  have hrange : List.range 9 = [0, 1, 2, 3, 4, 5, 6, 7, 8] := rfl
  have hmod : ∀ j : ℕ, (ci + j) % 9 = (ci % 9 + j) % 9 := fun j => by omega
  have hk : ci % 9 < 9 := Nat.mod_lt _ (by norm_num)
  rw [hrange]
  simp only [List.map_cons, List.map_nil, List.sum_cons, List.sum_nil, cycleDur]
  norm_num
  rw [hmod 1, hmod 2, hmod 3, hmod 4, hmod 5, hmod 6, hmod 7, hmod 8]
  interval_cases h : ci % 9 <;>
    norm_num [durationOf_planetAt_0, durationOf_planetAt_1, durationOf_planetAt_2,
      durationOf_planetAt_3, durationOf_planetAt_4, durationOf_planetAt_5,
      durationOf_planetAt_6, durationOf_planetAt_7, durationOf_planetAt_8]

/-! ## Dasha generator: invariant preservation -/

theorem cycleDur_nonneg {r : ℚ} (hr : 0 ≤ r) (ci j : ℕ) : 0 ≤ cycleDur r ci j := by
  unfold cycleDur
  split_ifs
  · exact hr
  · exact (durationOf_bounds _).1

theorem tableInv_append {s : DasaGenState} (hInv : TableInv s) {d : ℚ} (hd : 0 ≤ d)
    (rec : DasaRecord) (hs : rec.start_age = round2 s.current_year)
    (he : rec.end_age = round2 (s.current_year + d)) (sd : ℚ) :
    TableInv { current_year := s.current_year + d, start_date := sd,
               table := s.table ++ [rec] } := by
  obtain ⟨hchain, hmono, hhead, hnil, hlast⟩ := hInv
  refine ⟨?_, ?_, ?_, ?_, ?_⟩
  · rw [List.chain'_append]
    refine ⟨hchain, List.chain'_singleton _, ?_⟩
    intro x hx y hy
    simp only [List.head?_cons, Option.mem_def, Option.some.injEq] at hy
    subst hy
    cases htb : s.table.getLast? with
    | none => rw [htb] at hx; simp at hx
    | some lastr =>
      rw [htb] at hx
      simp only [Option.mem_def, Option.some.injEq] at hx
      subst hx
      rw [hs, hlast _ htb]
  · intro rec' h'
    rw [List.mem_append] at h'
    rcases h' with h' | h'
    · exact hmono rec' h'
    · simp only [List.mem_singleton] at h'
      subst h'
      rw [hs, he]
      exact round2_mono (by linarith)
  · intro h0 hh
    cases htb : s.table with
    | nil =>
      rw [htb] at hh
      simp only [List.nil_append, List.head?_cons, Option.some.injEq] at hh
      subst hh
      rw [hs, hnil htb, round2_zero]
    | cons a tl =>
      rw [htb] at hh
      simp only [List.cons_append, List.head?_cons, Option.some.injEq] at hh
      subst hh
      apply hhead
      rw [htb]
      rfl
  · intro habs
    exact absurd habs (by simp)
  · intro rec' h'
    rw [List.getLast?_concat] at h'
    simp only [Option.some.injEq] at h'
    subst h'
    exact he

theorem dasaInnerLoop_inv (t : ℤ) {r : ℚ} (hr : 0 ≤ r) (ci : ℕ) :
    ∀ (js : List ℕ) (s : DasaGenState), TableInv s →
      TableInv (dasaInnerLoop t r ci js s) := by
  intro js
  induction js with
  | nil => intro s h; exact h
  | cons j js ih =>
    intro s hInv
    by_cases h : (t : ℚ) ≤ s.current_year
    · rw [dasaInnerLoop_stop h]; exact hInv
    · rw [dasaInnerLoop_cons_lt t r ci j js s (not_le.mp h)]
      exact ih _ (tableInv_append hInv (cycleDur_nonneg hr ci j) _ rfl rfl _)

theorem dasaWhileLoop_inv (t : ℤ) {r : ℚ} (hr : 0 ≤ r) :
    ∀ (f ci : ℕ) (s : DasaGenState), TableInv s →
      TableInv (dasaWhileLoop t r f ci s) := by
  intro f
  induction f with
  | zero => intro ci s h; exact h
  | succ f ih =>
    intro ci s hInv
    by_cases h : s.current_year < (t : ℚ)
    · rw [dasaWhileLoop_succ f ci h]
      exact ih 0 _ (dasaInnerLoop_inv t hr ci _ s hInv)
    · rw [dasaWhileLoop_stop h]; exact hInv

theorem dasaWhileLoop_reaches_total (t : ℤ) {r : ℚ} (hr : 0 ≤ r) :
    ∀ (f : ℕ) (ci : ℕ) (s : DasaGenState),
      (t : ℚ) ≤ s.current_year + 100 * f →
      (t : ℚ) ≤ (dasaWhileLoop t r f ci s).current_year := by
  intro f
  induction f with
  | zero => intro ci s h; simpa using h
  | succ f ih =>
    intro ci s h
    by_cases hc : s.current_year < (t : ℚ)
    · rw [dasaWhileLoop_succ f ci hc]
      rcases dasaInnerLoop_year t r ci (List.range 9) s with h1 | h1
      · rw [dasaWhileLoop_stop (not_lt.mpr h1)]
        exact h1
      · apply ih 0
        rw [h1]
        have hsum := cycle_sum_ge r hr ci
        push_cast at h ⊢
        linarith
    · rw [dasaWhileLoop_stop hc]
      exact not_lt.mp hc

/-! ## Interval-partition lemmas for the generated table -/

theorem chain_pairwise_le :
    ∀ (tbl : List DasaRecord),
      List.Chain' (fun a b => a.end_age = b.start_age) tbl →
      (∀ rec ∈ tbl, rec.start_age ≤ rec.end_age) →
      List.Pairwise (fun a b => a.end_age ≤ b.start_age) tbl := by
  intro tbl
  induction tbl with
  | nil => intro _ _; exact List.Pairwise.nil
  | cons a tl ih =>
    intro hchain hmono
    have hp_tl := ih hchain.tail (fun r hr => hmono r (List.mem_cons_of_mem _ hr))
    refine List.Pairwise.cons ?_ hp_tl
    intro b hb
    cases tl with
    | nil => simp at hb
    | cons c tl2 =>
      have hac : a.end_age = c.start_age := (List.chain'_cons.mp hchain).1
      rcases List.mem_cons.mp hb with hbc | hb2
      · subst hbc; exact le_of_eq hac
      · have hcb : c.end_age ≤ b.start_age := (List.pairwise_cons.mp hp_tl).1 b hb2
        have hcc : c.start_age ≤ c.end_age := hmono c (by simp)
        calc a.end_age = c.start_age := hac
          _ ≤ c.end_age := hcc
          _ ≤ b.start_age := hcb

theorem cover_exists :
    ∀ (tbl : List DasaRecord) (x T : ℚ), tbl ≠ [] →
      (∀ h0, tbl.head? = some h0 → h0.start_age ≤ x) →
      List.Chain' (fun a b => a.end_age = b.start_age) tbl →
      (∀ rec, tbl.getLast? = some rec → T ≤ rec.end_age) →
      x < T →
      ∃ i : Fin tbl.length, (tbl.get i).start_age ≤ x ∧ x < (tbl.get i).end_age := by
  intro tbl
  induction tbl with
  | nil => intro x T hne; exact absurd rfl hne
  | cons a tl ih =>
    intro x T _ hhead hchain hlast hxT
    by_cases hx : x < a.end_age
    · exact ⟨⟨0, by simp⟩, hhead a rfl, hx⟩
    · push_neg at hx
      cases tl with
      | nil => exact absurd hxT (not_lt.mpr (le_trans (hlast a rfl) hx))
      | cons c tl2 =>
        have hac : a.end_age = c.start_age := (List.chain'_cons.mp hchain).1
        obtain ⟨i, hi1, hi2⟩ := ih x T (by simp)
          (fun h0 hh => by
            simp only [List.head?_cons, Option.some.injEq] at hh
            subst hh
            rw [← hac]
            exact hx)
          (List.chain'_cons.mp hchain).2
          (fun rec hrec => hlast rec (by rw [List.getLast?_cons_cons]; exact hrec))
          hxT
        exact ⟨i.succ, by simpa using hi1, by simpa using hi2⟩

theorem cover_exists_unique (tbl : List DasaRecord) (x T : ℚ) (hne : tbl ≠ [])
    (hhead : ∀ h0, tbl.head? = some h0 → h0.start_age ≤ x)
    (hchain : List.Chain' (fun a b => a.end_age = b.start_age) tbl)
    (hmono : ∀ rec ∈ tbl, rec.start_age ≤ rec.end_age)
    (hlast : ∀ rec, tbl.getLast? = some rec → T ≤ rec.end_age)
    (hxT : x < T) :
    ∃! i : Fin tbl.length, (tbl.get i).start_age ≤ x ∧ x < (tbl.get i).end_age := by
  obtain ⟨i, hi⟩ := cover_exists tbl x T hne hhead hchain hlast hxT
  have hpw := chain_pairwise_le tbl hchain hmono
  have hsep := List.pairwise_iff_get.mp hpw
  refine ⟨i, hi, ?_⟩
  intro j hj
  rcases lt_trichotomy (j : ℕ) (i : ℕ) with hlt | heq | hgt
  · exact absurd (lt_of_le_of_lt (le_trans (hsep j i hlt) hi.1) hj.2)
      (lt_irrefl _)
  · exact Fin.ext heq
  · exact absurd (lt_of_le_of_lt (le_trans (hsep i j hgt) hj.1) hi.2)
      (lt_irrefl _)

/-! ## Dasha start lemmas -/

theorem remaining_years_bounds (moon : ℚ) :
    0 ≤ (calculate_dasa_start moon).2.2.2 ∧
    (calculate_dasa_start moon).2.2.2 ≤ durationOf (calculate_dasa_start moon).2.2.1 := by
  have hlen : (0:ℚ) < 360 / 27 := by norm_num
  have hq0 : 0 ≤ pymod moon (360 / 27) := pymod_nonneg _ hlen
  have hq1 : pymod moon (360 / 27) < 360 / 27 := pymod_lt _ hlen
  have hp0 : 0 ≤ pymod moon (360 / 27) / (360 / 27) := by positivity
  have hp1 : pymod moon (360 / 27) / (360 / 27) < 1 := by
    rw [div_lt_one hlen]
    exact hq1
  have hD := durationOf_bounds (calculate_dasa_start moon).2.2.1
  constructor
  · show 0 ≤ durationOf (NAKSHATRA_LORDS.getD (⌊pymod moon 360 / (360 / 27)⌋).toNat "") *
      (1 - pymod moon (360 / 27) / (360 / 27))
    apply mul_nonneg (durationOf_bounds _).1
    linarith
  · show durationOf (NAKSHATRA_LORDS.getD (⌊pymod moon 360 / (360 / 27)⌋).toNat "") *
      (1 - pymod moon (360 / 27) / (360 / 27)) ≤
      durationOf (NAKSHATRA_LORDS.getD (⌊pymod moon 360 / (360 / 27)⌋).toNat "")
    nlinarith [(durationOf_bounds (NAKSHATRA_LORDS.getD (⌊pymod moon 360 / (360 / 27)⌋).toNat "")).1]

/-! ## C1: the Mahadasha table partitions [0, total_years) -/

/-- C1: for every Moon longitude, birth instant and positive requested
`total_years`, the generated Mahadasha table is nonempty, its first row's
`start_age` is 0, every row's `end_age` equals the next row's `start_age`,
the final row's `end_age` reaches at least `total_years`, and every age in
`[0, total_years)` lies in exactly one row's `[start_age, end_age)`
interval — the table covers `[0, total_years)` with no gaps or overlaps. -/
theorem generate_dasa_table_partition (jd moon : ℚ) (total : ℤ) (htot : 0 < total) :
    (generate_dasa_table jd moon total).2.2 ≠ [] ∧
    (∀ h0, ((generate_dasa_table jd moon total).2.2).head? = some h0 →
      h0.start_age = 0) ∧
    List.Chain' (fun a b => a.end_age = b.start_age)
      (generate_dasa_table jd moon total).2.2 ∧
    (∀ rec, ((generate_dasa_table jd moon total).2.2).getLast? = some rec →
      (total : ℚ) ≤ rec.end_age) ∧
    (∀ x : ℚ, 0 ≤ x → x < (total : ℚ) →
      ∃! i : Fin (generate_dasa_table jd moon total).2.2.length,
        ((generate_dasa_table jd moon total).2.2.get i).start_age ≤ x ∧
        x < ((generate_dasa_table jd moon total).2.2.get i).end_age) := by
  have hgen : (generate_dasa_table jd moon total).2.2 =
      (dasaWhileLoop total ((calculate_dasa_start moon).2.2.2) (total.toNat + 2)
        (dasaPlanets.indexOf ((calculate_dasa_start moon).2.2.1))
        ⟨0, jd, []⟩).table := rfl
  have hr : 0 ≤ (calculate_dasa_start moon).2.2.2 := (remaining_years_bounds moon).1
  have hInv0 : TableInv (⟨0, jd, []⟩ : DasaGenState) := by
    refine ⟨List.chain'_nil, ?_, ?_, ?_, ?_⟩ <;> simp
  have hInv := dasaWhileLoop_inv total hr (total.toNat + 2)
    (dasaPlanets.indexOf ((calculate_dasa_start moon).2.2.1)) ⟨0, jd, []⟩ hInv0
  have hfuel : (total : ℚ) ≤
      (({ current_year := 0, start_date := jd, table := [] } : DasaGenState)).current_year +
        100 * ((total.toNat + 2 : ℕ) : ℚ) := by
    show (total : ℚ) ≤ 0 + 100 * ((total.toNat + 2 : ℕ) : ℚ)
    have h1 : total ≤ total.toNat := Int.self_le_toNat total
    have h3 : (total : ℚ) ≤ ((total.toNat : ℕ) : ℚ) := by exact_mod_cast h1
    have h4 : (0:ℚ) ≤ ((total.toNat : ℕ) : ℚ) := by positivity
    push_cast
    linarith
  have hreach := dasaWhileLoop_reaches_total total hr (total.toNat + 2)
    (dasaPlanets.indexOf ((calculate_dasa_start moon).2.2.1)) ⟨0, jd, []⟩ hfuel
  set final := dasaWhileLoop total ((calculate_dasa_start moon).2.2.2) (total.toNat + 2)
    (dasaPlanets.indexOf ((calculate_dasa_start moon).2.2.1)) ⟨0, jd, []⟩ with hfinal
  obtain ⟨hchain, hmono, hhead, hnil, hlast⟩ := hInv
  have hne : final.table ≠ [] := by
    intro habs
    have hcy := hnil habs
    rw [hcy] at hreach
    exact absurd (lt_of_lt_of_le (by exact_mod_cast htot) hreach) (lt_irrefl 0)
  have hlastge : ∀ rec, final.table.getLast? = some rec → (total : ℚ) ≤ rec.end_age := by
    intro rec hrec
    rw [hlast rec hrec]
    exact round2_int_le hreach
  rw [hgen]
  refine ⟨hne, hhead, hchain, hlastge, ?_⟩
  intro x hx0 hxT
  exact cover_exists_unique final.table x total hne
    (fun h0 hh => by rw [hhead h0 hh]; exact hx0) hchain hmono hlastge hxT

/-- Witness for C1 at Moon longitude 0, origin 0, 120 requested years. -/
theorem generate_dasa_table_partition_witness :
    0 < (120 : ℤ) ∧
    ((generate_dasa_table 0 0 120).2.2 ≠ [] ∧
    (∀ h0, ((generate_dasa_table 0 0 120).2.2).head? = some h0 → h0.start_age = 0) ∧
    List.Chain' (fun a b => a.end_age = b.start_age) (generate_dasa_table 0 0 120).2.2 ∧
    (∀ rec, ((generate_dasa_table 0 0 120).2.2).getLast? = some rec →
      (120 : ℚ) ≤ rec.end_age) ∧
    (∀ x : ℚ, 0 ≤ x → x < (120 : ℚ) →
      ∃! i : Fin (generate_dasa_table 0 0 120).2.2.length,
        ((generate_dasa_table 0 0 120).2.2.get i).start_age ≤ x ∧
        x < ((generate_dasa_table 0 0 120).2.2.get i).end_age)) :=
  ⟨by norm_num, by
    have h := generate_dasa_table_partition 0 0 120 (by norm_num)
    exact_mod_cast h⟩

/-! ## C8: Mahadasha record count at the default 120-year span -/

/-- C8 amended: for every Moon longitude and birth instant, the Mahadasha
table generated at the default 120-year span contains at most 11 records:
the first pass of the 9-lord cycle emits at most 9, and the second pass
(entered when the partially elapsed first Mahadasha leaves the first cycle
short of 120 years) emits at most 2 more before the running age reaches
120 and the loop stops. -/
theorem generate_dasa_table_120_le_11 (jd moon : ℚ) :
    (generate_dasa_table jd moon 120).2.2.length ≤ 11 := by
  have hgen : (generate_dasa_table jd moon 120).2.2 =
      (dasaWhileLoop 120 ((calculate_dasa_start moon).2.2.2) 122
        (dasaPlanets.indexOf ((calculate_dasa_start moon).2.2.1)) ⟨0, jd, []⟩).table := rfl
  have hr : 0 ≤ (calculate_dasa_start moon).2.2.2 := (remaining_years_bounds moon).1
  set r := (calculate_dasa_start moon).2.2.2 with hrdef
  set ci := dasaPlanets.indexOf ((calculate_dasa_start moon).2.2.1) with hcidef
  rw [hgen]
  rw [show (122:ℕ) = 121 + 1 from rfl]
  rw [dasaWhileLoop_succ 121 ci (show ((⟨0, jd, []⟩ : DasaGenState)).current_year < ((120:ℤ):ℚ) by norm_num)]
  have hlen1 : (dasaInnerLoop 120 r ci (List.range 9) ⟨0, jd, []⟩).table.length ≤ 9 := by
    simpa using dasaInnerLoop_length_le 120 r ci (List.range 9) ⟨0, jd, []⟩
  set c1 := dasaInnerLoop 120 r ci (List.range 9) (⟨0, jd, []⟩ : DasaGenState) with hc1
  rcases dasaInnerLoop_year 120 r ci (List.range 9) ⟨0, jd, []⟩ with hY | hY
  · rw [dasaWhileLoop_stop (not_lt.mpr hY)]
    exact le_trans hlen1 (by norm_num)
  · have h100 : (100:ℚ) ≤ c1.current_year := by
      rw [hc1, hY]
      have := cycle_sum_ge r hr ci
      simp only [DasaGenState.current_year]
      linarith
    by_cases hc : c1.current_year < ((120:ℤ):ℚ)
    · rw [show (121:ℕ) = 120 + 1 from rfl]
      rw [dasaWhileLoop_succ 120 0 hc]
      rw [show List.range 9 = 0 :: 1 :: [2,3,4,5,6,7,8] from rfl]
      rw [dasaInnerLoop_cons_lt 120 r 0 0 _ c1 hc]
      have hd0 : cycleDur r 0 0 = r := rfl
      by_cases h2 : ((120:ℤ):ℚ) ≤ c1.current_year + cycleDur r 0 0
      · rw [dasaInnerLoop_stop h2]
        rw [dasaWhileLoop_stop (not_lt.mpr h2)]
        simp only [DasaGenState.table, List.length_append, List.length_cons, List.length_nil]
        omega
      · push_neg at h2
        rw [dasaInnerLoop_cons_lt 120 r 0 1 _ _ h2]
        have h20 : cycleDur r 0 1 = 20 := by
          simp only [cycleDur]
          norm_num [durationOf_planetAt_1]
        have h3 : ((120:ℤ):ℚ) ≤
            (c1.current_year + cycleDur r 0 0) + cycleDur r 0 1 := by
          rw [h20, hd0]
          push_cast
          linarith
        rw [dasaInnerLoop_stop h3]
        rw [dasaWhileLoop_stop (not_lt.mpr h3)]
        simp only [DasaGenState.table, List.length_append, List.length_cons, List.length_nil]
        omega
    · rw [dasaWhileLoop_stop hc]
      exact le_trans hlen1 (by norm_num)

/-! ## Exact no-break runs of the inner loop -/

theorem dasaInnerLoop_run_exact (t : ℤ) (r : ℚ) (ci : ℕ) :
    ∀ (js : List ℕ) (s : DasaGenState),
      (∀ k, k < js.length →
        s.current_year + ((js.take k).map (cycleDur r ci)).sum < (t : ℚ)) →
      (dasaInnerLoop t r ci js s).current_year =
        s.current_year + (js.map (cycleDur r ci)).sum ∧
      (dasaInnerLoop t r ci js s).table.length = s.table.length + js.length := by
  intro js
  induction js with
  | nil => intro s _; simp [dasaInnerLoop]
  | cons j js ih =>
    intro s hpre
    have h0 : s.current_year < (t : ℚ) := by
      have := hpre 0 (by simp)
      simpa using this
    rw [dasaInnerLoop_cons_lt t r ci j js s h0]
    have hrec := ih
      { current_year := s.current_year + cycleDur r ci j
        start_date := s.start_date + cycleDur r ci j * (1461 / 4)
        table := s.table ++
          [{ planet := planetAt ((ci + j) % 9)
             start_age := round2 s.current_year
             end_age := round2 (s.current_year + cycleDur r ci j)
             start_date := s.start_date
             end_date := s.start_date + cycleDur r ci j * (1461 / 4)
             duration := round2 (cycleDur r ci j) }] }
      (by
        intro k hk
        have := hpre (k + 1) (by simpa using Nat.succ_lt_succ hk)
        simp only [List.take_succ_cons, List.map_cons, List.sum_cons] at this
        simp only [DasaGenState.current_year]
        linarith)
    refine ⟨?_, ?_⟩
    · rw [hrec.1]
      simp only [DasaGenState.current_year, List.map_cons, List.sum_cons]
      ring
    · rw [hrec.2]
      simp only [DasaGenState.table, List.length_append, List.length_cons,
        List.length_nil, List.length_singleton]
      omega

/-! ## C8 counterexample: 10 records at Moon 20/3° -/

/-- C8 counterexample: with the Moon at longitude 20/3° (the midpoint of
the first nakshatra, so half of Ketu's 7 years remain) the default
120-year table contains 10 Mahadasha records, not at most 9: the 9-lord
cycle completes at age 116.5 and a 10th record (Ketu again) is emitted. -/
theorem generate_dasa_table_120_not_le_9 :
    ¬ ((generate_dasa_table 0 (20/3 : ℚ) 120).2.2.length ≤ 9) := by
  have hcds : calculate_dasa_start (20/3 : ℚ) = ("Ashwini", 3, "Ketu", 7/2) := by
    norm_num [calculate_dasa_start, get_nakshatra, pymod, NAKSHATRAS, NAKSHATRA_LORDS,
      dasaPlanets, DASA_DURATIONS, durationOf, pytrunc, List.getD]
  have hred : (generate_dasa_table 0 (20/3:ℚ) 120).2.2 =
      (dasaWhileLoop 120 (7/2) 122 0 ⟨0, 0, []⟩).table := by
    show (dasaWhileLoop 120 ((calculate_dasa_start (20/3:ℚ)).2.2.2) 122
        (dasaPlanets.indexOf ((calculate_dasa_start (20/3:ℚ)).2.2.1)) ⟨0, 0, []⟩).table =
      (dasaWhileLoop 120 (7/2) 122 0 ⟨0, 0, []⟩).table
    rw [hcds]
    rfl
  have hrun := dasaInnerLoop_run_exact 120 (7/2) 0 (List.range 9)
    (⟨0, 0, []⟩ : DasaGenState)
    (by
      intro k hk
      simp only [List.length_range] at hk
      interval_cases k <;>
        norm_num [List.range_succ, cycleDur, durationOf_planetAt_1, durationOf_planetAt_2,
          durationOf_planetAt_3, durationOf_planetAt_4, durationOf_planetAt_5,
          durationOf_planetAt_6, durationOf_planetAt_7, durationOf_planetAt_8])
  have hsum : ((List.range 9).map (cycleDur (7/2) 0)).sum = 233/2 := by
    norm_num [List.range_succ, cycleDur, durationOf_planetAt_1, durationOf_planetAt_2,
      durationOf_planetAt_3, durationOf_planetAt_4, durationOf_planetAt_5,
      durationOf_planetAt_6, durationOf_planetAt_7, durationOf_planetAt_8]
  set c1 := dasaInnerLoop 120 (7/2) 0 (List.range 9) (⟨0, 0, []⟩ : DasaGenState) with hc1
  have hcy1 : c1.current_year = 233/2 := by
    rw [hrun.1, hsum]
    norm_num
  have hlen1 : c1.table.length = 9 := by
    rw [hrun.2]
    simp
  have hlen : (generate_dasa_table 0 (20/3:ℚ) 120).2.2.length = 10 := by
    rw [hred]
    rw [show (122:ℕ) = 121 + 1 from rfl]
    rw [dasaWhileLoop_succ 121 0
      (show ((⟨0, 0, []⟩ : DasaGenState)).current_year < ((120:ℤ):ℚ) by norm_num)]
    rw [← hc1]
    rw [show (121:ℕ) = 120 + 1 from rfl]
    rw [dasaWhileLoop_succ 120 0 (by rw [hcy1]; norm_num)]
    rw [show List.range 9 = 0 :: [1,2,3,4,5,6,7,8] from rfl]
    rw [dasaInnerLoop_cons_lt 120 (7/2) 0 0 _ c1 (by rw [hcy1]; norm_num)]
    have hstop : ((120:ℤ):ℚ) ≤ c1.current_year + cycleDur (7/2) 0 0 := by
      rw [hcy1, show cycleDur (7/2) 0 0 = 7/2 from rfl]
      norm_num
    rw [dasaInnerLoop_stop hstop]
    rw [dasaWhileLoop_stop (not_lt.mpr hstop)]
    simp only [DasaGenState.table, List.length_append, List.length_cons, List.length_nil]
    omega
  omega
